import Mathlib

/-!
# Connection lifecycle of the GnuPG smartcard daemon

A shallow embedding of `scd/scdaemon.c`: endpoint naming, endpoint server,
connection worker, signal handling and the event loop.

* The file-scope variables of `scdaemon.c` are the fields of `Globals`.
* A C function is a `Proc α`: it takes the globals and ends in one of four ways:
  it returns, the process exits (`exit`), the process aborts (`assert`, `BUG`),
  or the controller is still blocked in its wait because the finite list of
  wait outcomes handed to the model is used up.
* Every call into a collaborator (libc, Pth, Assuan, jnlib, the command handler)
  is appended to `Globals.trace`; the value a collaborator returns is read from
  an explicit environment (`Sys`, `Wait`, `WorkerRun`).
* C strings are `List Char` without the terminating NUL, so `strlen` is
  `List.length`.
-/

namespace Scdaemon

/-! ## Constants -/

/-- The invalid descriptor of the POSIX build (`gnupg_fd_t` is `int` there). -/
def GNUPG_INVALID_FD : Int := -1

/-- Seconds between two housekeeping ticks (non-Windows build). -/
def TIMERTICK_INTERVAL : Nat := 2

/-- Signal numbers of `<signal.h>` (Linux values); the `switch` of
`handle_signal` only needs them to be distinct. -/
def SIGHUP : Int := 1

def SIGINT : Int := 2

def SIGUSR1 : Int := 10

def SIGUSR2 : Int := 12

def SIGTERM : Int := 15

/-- Constants of the platform headers that `scdaemon.c` uses but does not define. -/
structure Platform where
  /-- The path-list separator character `PATHSEP_C`. -/
  PATHSEP_C : Char
  /-- The value of `DIMof (struct sockaddr_un, sun_path)`. -/
  sun_path_size : Nat
  /-- The `errno` value `EADDRINUSE`. -/
  EADDRINUSE : Int
  deriving DecidableEq, Repr

/-- The values on Linux: `':'`, 108 bytes, errno 98. -/
def linux : Platform := ⟨':', 108, 98⟩

/-! ## Observable calls and process state -/

/-- Calls into collaborators, and the entries into the two context hooks of
this file, in the order the code makes them. -/
inductive Call where
  | log_info (msg : String)
  | log_error (msg : String)
  | remove (name : List Char)
  | rmdir (name : List Char)
  | make_filename (first second : List Char)
  | mkdtemp (tmpl : List Char)
  | assuan_sock_new
  | assuan_sock_bind (fd : Int) (path : List Char)
  | assuan_sock_get_nonce (path : List Char)
  | listen (fd : Int) (backlog : Nat)
  | assuan_sock_close (fd : Int)
  | assuan_sock_check_nonce (fd : Int)
  | close (fd : Int)
  | xtrycalloc
  | xfree
  | pth_spawn (fd : Int)
  | pth_accept (listen_fd : Int)
  | pth_event_time (secs : Nat)
  | pth_event_free_time
  | pth_event_free_sigs
  | pth_select_ev (with_listen_fd : Bool)
  | pth_sleep (secs : Nat)
  | pth_sigmask_block
  | pth_sigmask_restore
  | pth_ctrl_dumpstate
  | app_dump_state
  | scd_init_default_ctrl
  | scd_command_handler (fd : Int) (reader_slot : Int)
  | scd_deinit_default_ctrl
  | scd_update_reader_status_file
  | gcry_term_secmem
  | exit (rc : Int)
  | kill (pid : Nat) (sig : Int)
  | putenv (entry : List Char)
  | execvp
  | printf (text : List Char)
  deriving DecidableEq, Repr

/-- The file-scope state of `scdaemon.c` together with the state of its
collaborators that the code reads back. -/
structure Globals where
  /-- Variable `static int shutdown_pending`. -/
  shutdown_pending : Int
  /-- Variable `static char *socket_name`: `none` is `NULL`. -/
  socket_name : Option (List Char)
  /-- Variable `static int ticker_disabled`. -/
  ticker_disabled : Int
  /-- Option `opt.homedir`. -/
  homedir : List Char
  /-- Option `opt.verbose`. -/
  verbose : Int
  /-- What `log_get_errorcount (0)` returns: the number of `log_error` calls. -/
  errorcount : Nat
  /-- Whether `atexit (cleanup)` has been registered. -/
  atexit_cleanup : Bool
  /-- Threads of the Pth scheduler other than the controller (live workers). -/
  workers : Nat
  /-- The calls made so far, oldest first. -/
  trace : List Call
  deriving DecidableEq, Repr

/-- How a piece of code ends. -/
inductive Res (α : Type) where
  /-- It returned a value. -/
  | ret (a : α) (g : Globals)
  /-- The process terminated with status `rc`. -/
  | exit (rc : Int) (g : Globals)
  /-- The process aborted (`assert` failure or `BUG ()`). -/
  | abort (g : Globals)
  /-- The controller is still blocked in `pth_select_ev`. -/
  | blocked (g : Globals)
  deriving DecidableEq, Repr

/-- A C function over the globals. -/
def Proc (α : Type) : Type := Globals → Res α

/-- Sequencing: only a return continues. -/
def Proc.bind {α β : Type} (m : Proc α) (f : α → Proc β) : Proc β := fun g =>
  match m g with
  | .ret a g1 => f a g1
  | .exit rc g1 => .exit rc g1
  | .abort g1 => .abort g1
  | .blocked g1 => .blocked g1

instance : Monad Proc where
  pure a := fun g => .ret a g
  bind := Proc.bind

/-- Read the globals. -/
def getG : Proc Globals := fun g => .ret g g

/-- Update the globals. -/
def modifyG (f : Globals → Globals) : Proc Unit := fun g => .ret () (f g)

/-- Record a call. -/
def call (c : Call) : Proc Unit := modifyG fun g => { g with trace := g.trace ++ [c] }

/-- Function `log_info` of jnlib. -/
def log_info (msg : String) : Proc Unit := call (.log_info msg)

/-- Function `log_error` of jnlib: it also counts the error. -/
def log_error (msg : String) : Proc Unit :=
  modifyG fun g => { g with errorcount := g.errorcount + 1, trace := g.trace ++ [.log_error msg] }

/-- Abort the process. -/
def abort {α : Type} : Proc α := fun g => .abort g

/-- The globals a result carries. -/
def Res.globals {α : Type} : Res α → Globals
  | .ret _ g => g
  | .exit _ g => g
  | .abort g => g
  | .blocked g => g

/-- The calls made between the state `g` and the result `r`. -/
def Res.newCalls {α : Type} (r : Res α) (g : Globals) : List Call :=
  r.globals.trace.drop g.trace.length

/-! ## String helpers of libc -/

/-- Function `strrchr`: the index of the last occurrence of `c`, if any. -/
def strrchr : List Char → Char → Option Nat
  | [], _ => none
  | x :: xs, c =>
    match strrchr xs c with
    | some i => some (i + 1)
    | none => if x = c then some 0 else none

/-- Function `strchr` used as a truth value: does `c` occur? -/
def strchr (s : List Char) (c : Char) : Bool := s.contains c

/-! ## Cleanup and process exit -/

/-- Function `cleanup`: remove the socket file and its directory, once. -/
def cleanup : Proc Unit := do
  let g ← getG
  match g.socket_name with
  | none => pure ()
  | some [] => pure ()
  | some (c :: cs) =>
    call (.remove (c :: cs))
    match strrchr (c :: cs) '/' with
    | some i => call (.rmdir ((c :: cs).take i))
    | none => pure ()
    modifyG fun g => { g with socket_name := some [] }

/-- Function `exit` of libc: the call is recorded with its argument, the
registered `atexit` handler runs, and the process terminates.  The status of
the process is `rc & 0377`, the low eight bits of the argument. -/
def libc_exit {α : Type} (rc : Int) : Proc α := fun g =>
  let g1 := { g with trace := g.trace ++ [.exit rc] }
  match (if g1.atexit_cleanup then cleanup g1 else .ret () g1) with
  | .ret _ g2 => .exit (rc % 256) g2
  | .exit r g2 => .exit r g2
  | .abort g2 => .abort g2
  | .blocked g2 => .blocked g2

/-- Function `scd_exit`. -/
def scd_exit {α : Type} (rc : Int) : Proc α := do
  call .gcry_term_secmem
  let g ← getG
  let rc := if rc ≠ 0 then rc else if g.errorcount ≠ 0 then 2 else 0
  libc_exit rc

/-- Function `scd_get_socket_name`: `none` is `NULL`. -/
def scd_get_socket_name (g : Globals) : Option (List Char) :=
  match g.socket_name with
  | some (c :: cs) => some (c :: cs)
  | _ => none

/-! ## Signals and the tick -/

/-- Function `handle_signal` (POSIX build).  The increment `shutdown_pending++`
is taken on the integers; the C `int` agrees with it below `INT_MAX`, and the
counter of a running process stays within 0..2. -/
def handle_signal (signo : Int) : Proc Unit := do
  if signo = SIGHUP then
    log_info "SIGHUP received - re-reading configuration and resetting cards"
  else if signo = SIGUSR1 then
    log_info "SIGUSR1 received - printing internal information:"
    call .pth_ctrl_dumpstate
    call .app_dump_state
  else if signo = SIGUSR2 then
    log_info "SIGUSR2 received - no action defined"
  else if signo = SIGTERM then
    let g ← getG
    if g.shutdown_pending = 0 then
      log_info "SIGTERM received - shutting down ..."
    else
      log_info "SIGTERM received - still running threads"
    modifyG fun g => { g with shutdown_pending := g.shutdown_pending + 1 }
    let g ← getG
    if g.shutdown_pending > 2 then
      log_info "shutdown forced"
      log_info "scdaemon (GnuPG) stopped"
      cleanup
      scd_exit 0
  else if signo = SIGINT then
    log_info "SIGINT received - immediate shutdown"
    log_info "scdaemon (GnuPG) stopped"
    cleanup
    scd_exit 0
  else
    log_info "signal received - no action defined"

/-- Function `handle_tick`. -/
def handle_tick : Proc Unit := do
  let g ← getG
  if g.ticker_disabled = 0 then
    call .scd_update_reader_status_file

/-! ## Endpoint naming and endpoint server -/

/-- What the collaborators called during start-up answer. -/
structure Sys where
  /-- Function `make_filename` of jnlib. -/
  make_filename : List Char → List Char → List Char
  /-- Function `mkdtemp`: `none` is failure, `some d` the rewritten directory name. -/
  mkdtemp : List Char → Option (List Char)
  /-- The descriptor `assuan_sock_new` returns. -/
  sock_new : Int
  /-- Return value and `errno` of the first `assuan_sock_bind`. -/
  bind1 : Int × Int
  /-- Return value and `errno` of the second `assuan_sock_bind`. -/
  bind2 : Int × Int
  /-- Return value of `assuan_sock_get_nonce`. -/
  get_nonce : Int
  /-- Return value of `listen`. -/
  listen : Int
  /-- Whether `xtrycalloc` in `main` returns a context. -/
  calloc_ok : Bool
  /-- Whether `pth_spawn` in `main` returns a thread. -/
  spawn_ok : Bool

/-- First block of `create_socket_name`: the name before validation, from the
standard name or from the directory that `mkdtemp` creates. -/
def socket_name_candidate (E : Sys) (use_standard_socket : Int)
    (standard_name template : List Char) : Proc (List Char) := do
  if use_standard_socket ≠ 0 then
    let g ← getG
    call (.make_filename g.homedir standard_name)
    pure (E.make_filename g.homedir standard_name)
  else
    match strrchr template '/' with
    | none => abort
    | some i =>
      call (.mkdtemp (template.take i))
      match E.mkdtemp (template.take i) with
      | none =>
        log_error "cannot create directory"
        scd_exit 2
      | some d => pure (d ++ '/' :: template.drop (i + 1))

/-- Second block of `create_socket_name`: the two checks on the name. -/
def check_socket_name (P : Platform) (name : List Char) : Proc (List Char) := do
  if strchr name P.PATHSEP_C then
    log_error "PATHSEP_S are not allowed in the socket name"
    scd_exit 2
  if name.length + 1 ≥ P.sun_path_size then
    log_error "name of socket too long"
    scd_exit 2
  pure name

/-- Function `create_socket_name`. -/
def create_socket_name (P : Platform) (E : Sys) (use_standard_socket : Int)
    (standard_name template : List Char) : Proc (List Char) := do
  let name ← socket_name_candidate E use_standard_socket standard_name template
  check_socket_name P name

/-- First block of `create_server_socket`: the socket, the address, the bind
and its single retry; the result is `fd` and the value `rc` of the last bind. -/
def server_socket_bind (P : Platform) (E : Sys) (is_standard_name : Int)
    (name : List Char) : Proc (Int × Int) := do
  call .assuan_sock_new
  let fd := E.sock_new
  if fd = GNUPG_INVALID_FD then
    log_error "cannot create socket"
    scd_exit 2
  if ¬ (name.length + 1 < P.sun_path_size) then
    abort
  call (.assuan_sock_bind fd name)
  if is_standard_name ≠ 0 ∧ E.bind1.1 = -1 ∧ E.bind1.2 = P.EADDRINUSE then
    call (.remove name)
    call (.assuan_sock_bind fd name)
    pure (fd, E.bind2.1)
  else
    pure (fd, E.bind1.1)

/-- Second block of `create_server_socket`: the nonce, the exit when `rc` is
-1, and `listen`. -/
def server_socket_listen (E : Sys) (name : List Char) (fd rc0 : Int) : Proc Int := do
  let mut rc := rc0
  if rc ≠ -1 then
    call (.assuan_sock_get_nonce name)
    rc := E.get_nonce
    if rc ≠ 0 then
      log_error "error getting nonce for the socket"
  if rc = -1 then
    log_error "error binding socket"
    call (.assuan_sock_close fd)
    scd_exit 2
  call (.listen fd 5)
  if E.listen = -1 then
    log_error "listen() failed"
    call (.assuan_sock_close fd)
    scd_exit 2
  let g ← getG
  if g.verbose ≠ 0 then
    log_info "listening on socket"
  pure fd

/-- Function `create_server_socket`. -/
def create_server_socket (P : Platform) (E : Sys) (is_standard_name : Int)
    (name : List Char) : Proc Int := do
  let (fd, rc) ← server_socket_bind P E is_standard_name name
  server_socket_listen E name fd rc

/-! ## Connection worker -/

/-- The part of the connection context `ctrl_t` that `scdaemon.c` touches. -/
structure Ctrl where
  /-- Field `thread_startup.fd`. -/
  fd : Int
  /-- Field `reader_slot`. -/
  reader_slot : Int
  deriving DecidableEq, Repr

/-- A worker thread that the scheduler runs to completion: the descriptor of its
context and what `assuan_sock_check_nonce` answers if it is asked. -/
structure WorkerRun where
  /-- Field `thread_startup.fd` of the context. -/
  fd : Int
  /-- Return value of `assuan_sock_check_nonce`. -/
  check_nonce : Int
  deriving DecidableEq, Repr

/-- Function `scd_init_default_ctrl`; the entry is recorded in the trace. -/
def scd_init_default_ctrl (ctrl : Ctrl) : Proc Ctrl := do
  call .scd_init_default_ctrl
  pure { ctrl with reader_slot := -1 }

/-- Function `scd_deinit_default_ctrl`; the entry is recorded in the trace. -/
def scd_deinit_default_ctrl (_ctrl : Ctrl) : Proc Unit :=
  call .scd_deinit_default_ctrl

/-- Function `start_connection_thread`.  The command handler is a collaborator
defined in another file: it cannot reach the `static` variables of
`scdaemon.c`, so it is a trace entry carrying the descriptor and the reader
slot it is started with. -/
def start_connection_thread (ctrl : Ctrl) (nonce_rc : Int) : Proc Unit := do
  if ctrl.fd ≠ GNUPG_INVALID_FD then
    call (.assuan_sock_check_nonce ctrl.fd)
  if ctrl.fd ≠ GNUPG_INVALID_FD ∧ nonce_rc ≠ 0 then
    log_info "error reading nonce on fd"
    call (.assuan_sock_close ctrl.fd)
    call .xfree
  else
    let ctrl ← scd_init_default_ctrl ctrl
    let g ← getG
    if g.verbose ≠ 0 then
      log_info "handler for fd started"
    call (.scd_command_handler ctrl.fd ctrl.reader_slot)
    if g.verbose ≠ 0 then
      log_info "handler for fd terminated"
    if ctrl.fd = GNUPG_INVALID_FD then
      modifyG fun g => { g with shutdown_pending := 1 }
    scd_deinit_default_ctrl ctrl
    call .xfree

/-- A worker thread from start to end: `start_connection_thread` on a context
that `xtrycalloc` zeroed, after which the scheduler drops the thread. -/
def worker_thread (w : WorkerRun) : Proc Unit := do
  start_connection_thread ⟨w.fd, 0⟩ w.check_nonce
  modifyG fun g => { g with workers := g.workers - 1 }

/-- The worker threads that run to completion while the controller is suspended. -/
def run_workers : List WorkerRun → Proc Unit
  | [] => pure ()
  | w :: ws => do
    worker_thread w
    run_workers ws

/-! ## Event loop -/

/-- What one pass of the loop gets from its collaborators. -/
structure Wait where
  /-- Whether `pth_event (PTH_EVENT_TIME, ...)` returns an event, if it is called. -/
  timer_ok : Bool
  /-- Workers that complete while `pth_select_ev` is suspended. -/
  done : List WorkerRun
  /-- Return value of `pth_select_ev`. -/
  ret : Int
  /-- The signal number if `pth_event_occurred (ev)`. -/
  sig : Option Int
  /-- Whether the timer event occurred. -/
  timer : Bool
  /-- Whether the listening descriptor is reported readable. -/
  readable : Bool
  /-- Workers that complete during `pth_sleep (1)`. -/
  slept : List WorkerRun
  /-- Return value of `pth_accept`. -/
  accept_fd : Int
  /-- Whether `xtrycalloc` returns a context. -/
  calloc_ok : Bool
  /-- Whether `pth_spawn` returns a thread. -/
  spawn_ok : Bool
  deriving DecidableEq, Repr

/-- The local variables of `handle_connections` that live across passes. -/
structure LoopState where
  /-- Whether `listen_fd` is in `fdset`. -/
  fdset : Bool
  /-- Whether `time_ev` is non-NULL. -/
  time_ev : Bool
  deriving DecidableEq, Repr

/-- Value of `pth_ctrl (PTH_CTRL_GETTHREADS)`: the controller and the live workers. -/
def pth_ctrl_getthreads (g : Globals) : Nat := g.workers + 1

/-- The accept block of the loop body, entered when the listening descriptor
is set in `read_fdset`. -/
def accept_connection (listen_fd : Int) (wt : Wait) : Proc Unit := do
  call (.pth_accept listen_fd)
  let fd := wt.accept_fd
  if fd = -1 then
    log_error "accept failed"
  else do
    call .xtrycalloc
    if ¬ wt.calloc_ok then
      log_error "error allocating connection control data"
      call (.close fd)
    else
      call (.pth_spawn fd)
      if ¬ wt.spawn_ok then
        log_error "error spawning connection handler"
        call .xfree
        call (.close fd)
      else
        modifyG fun g => { g with workers := g.workers + 1 }

/-- One pass of the body of `for (;;)` in `handle_connections` from the
creation of the timer on; `fdset` says whether `listen_fd` is still in the
descriptor set and `time_ev0` whether a timer is left from the pass before. -/
def loop_wait (listen_fd : Int) (wt : Wait) (fdset time_ev0 : Bool) : Proc LoopState := do
  let time_ev ←
    if ¬ time_ev0 then do
      call (.pth_event_time TIMERTICK_INTERVAL)
      pure wt.timer_ok
    else pure true
  call (.pth_select_ev fdset)
  run_workers wt.done
  if wt.ret = -1 then
    if wt.sig.isSome ∨ (time_ev ∧ wt.timer) then
      match wt.sig with
      | some signo => handle_signal signo
      | none => pure ()
      if time_ev ∧ wt.timer then
        call .pth_event_free_time
        handle_tick
        pure ⟨fdset, false⟩
      else pure ⟨fdset, time_ev⟩
    else
      log_error "pth_select failed - waiting 1s"
      call (.pth_sleep 1)
      run_workers wt.slept
      pure ⟨fdset, time_ev⟩
  else
    match wt.sig with
    | some signo => handle_signal signo
    | none => pure ()
    let time_ev1 ←
      if time_ev ∧ wt.timer then do
        call .pth_event_free_time
        handle_tick
        pure false
      else pure time_ev
    call .pth_sigmask_block
    if listen_fd ≠ -1 ∧ (fdset ∧ wt.readable) then
      accept_connection listen_fd wt
    call .pth_sigmask_restore
    pure ⟨fdset, time_ev1⟩

/-- One pass of the body of `for (;;)` in `handle_connections`, after the
test that leaves the loop: with a shutdown pending the descriptor set is
cleared (`FD_ZERO`), then the pass goes on as in `loop_wait`. -/
def loop_body (listen_fd : Int) (wt : Wait) (st : LoopState) : Proc LoopState := do
  let g ← getG
  let fdset := if g.shutdown_pending ≠ 0 then false else st.fdset
  loop_wait listen_fd wt fdset st.time_ev

/-- The `for (;;)` of `handle_connections` over the wait outcomes `ws`; the
result is the loop state at the `break`. -/
def handle_connections_loop (listen_fd : Int) : List Wait → LoopState → Proc LoopState
  | [], st => fun g =>
    if g.shutdown_pending ≠ 0 ∧ pth_ctrl_getthreads g = 1 then .ret st g else .blocked g
  | wt :: ws, st => do
    let g ← getG
    if g.shutdown_pending ≠ 0 ∧ pth_ctrl_getthreads g = 1 then
      pure st
    else
      let st1 ← loop_body listen_fd wt st
      handle_connections_loop listen_fd ws st1

/-- Function `handle_connections`. -/
def handle_connections (listen_fd : Int) (ws : List Wait) : Proc Unit := do
  let st ← handle_connections_loop listen_fd ws ⟨decide (listen_fd ≠ -1), false⟩
  call .pth_event_free_sigs
  if st.time_ev then
    call .pth_event_free_time
  cleanup
  log_info "scdaemon (GnuPG) stopped"

/-! ## The two server branches of `main` -/

/-- The branch `if (pipe_server)` of `main`, first part: the listening socket
of multi-server mode; the result is the local variable `fd`. -/
def main_pipe_server_socket (P : Platform) (E : Sys) (multi_server standard_socket : Int) :
    Proc Int := do
  if multi_server ≠ 0 then
    let name ← create_socket_name P E standard_socket "S.scdaemon".toList
      "/tmp/gpg-XXXXXX/S.scdaemon".toList
    modifyG fun g => { g with socket_name := some name }
    create_server_socket P E standard_socket name
  else
    pure (-1)

/-- The branch `if (pipe_server)` of `main`, second part: the pipe connection
and the loop; `return 0` from `main` is `exit (0)`. -/
def main_pipe_server_run (E : Sys) (fd : Int) (ws : List Wait) : Proc Unit := do
  call .xtrycalloc
  if ¬ E.calloc_ok then
    log_error "error allocating connection control data"
    scd_exit 2
  call (.pth_spawn GNUPG_INVALID_FD)
  if ¬ E.spawn_ok then
    log_error "error spawning pipe connection handler"
    call .xfree
    scd_exit 2
  modifyG fun g => { g with workers := g.workers + 1 }
  handle_connections fd ws
  if fd ≠ -1 then
    call (.close fd)
  libc_exit 0

/-- The branch `if (pipe_server)` of `main`. -/
def main_pipe_server (P : Platform) (E : Sys) (multi_server standard_socket : Int)
    (ws : List Wait) : Proc Unit := do
  let fd ← main_pipe_server_socket P E multi_server standard_socket
  main_pipe_server_run E fd ws

/-- The conversion `%lu` of `printf`. -/
def fmt_lu (n : Nat) : List Char := Nat.toDigits 10 n

/-- The string `estream_asprintf` builds from the format
`SCDAEMON_INFO=%s:%lu:1`, the socket name and the child pid. -/
def asprintf_infostr (name : List Char) (pid : Nat) : List Char :=
  "SCDAEMON_INFO=".toList ++ name ++ ':' :: fmt_lu pid ++ ":1".toList

/-- The assignment `*strchr (s, c) = d`: the first `c` of `s` becomes `d`. -/
def set_first : List Char → Char → Char → List Char
  | [], _, _ => []
  | x :: xs, c, d => if x = c then d :: xs else x :: set_first xs c d

/-- The newline character. -/
def newline : Char := Char.ofNat 10

/-- The block of `main` that the parent runs after a successful `fork`, `pid`
being the child.  `asprintf_ok` tells whether `estream_asprintf` succeeded,
`putenv_rc` is what `putenv` returns, and `exec` is the program that `execvp`
starts, `none` when `execvp` fails and returns. -/
def main_daemon_parent (fd : Int) (pid : Nat) (argc csh_style : Int) (asprintf_ok : Bool)
    (putenv_rc : Int) (exec : Option (Proc Unit)) : Proc Unit := do
  call (.close fd)
  let g ← getG
  match g.socket_name with
  | none => abort
  | some name =>
    if ¬ asprintf_ok then
      log_error "out of core"
      call (.kill pid SIGTERM)
      libc_exit 1
    let infostr := asprintf_infostr name pid
    modifyG fun g => { g with socket_name := some [] }
    if argc ≠ 0 then
      call (.putenv infostr)
      if putenv_rc ≠ 0 then
        log_error "failed to set environment"
        call (.kill pid SIGTERM)
        libc_exit 1
      call .execvp
      match exec with
      | some prog => prog
      | none =>
        log_error "failed to run the command"
        call (.kill pid SIGTERM)
        libc_exit 1
    else
      if csh_style ≠ 0 then
        call (.printf ("setenv ".toList ++ set_first infostr '=' ' ' ++ [newline]))
      else
        call (.printf (infostr ++ "; export SCDAEMON_INFO;".toList ++ [newline]))
      call .xfree
      libc_exit 0

/-! ## Sequences of shutdown events -/

/-- An event that touches `shutdown_pending`: a terminate signal handed to
`handle_signal`, or a worker thread that runs to completion. -/
inductive Event where
  | sigterm
  | worker_done (w : WorkerRun)
  deriving DecidableEq, Repr

/-- The events handled one after the other. -/
def handle_events : List Event → Proc Unit
  | [] => pure ()
  | .sigterm :: es => do
    handle_signal SIGTERM
    handle_events es
  | .worker_done w :: es => do
    worker_thread w
    handle_events es

/-- Worker threads that run to completion one after the other, as events. -/
def workers_done (q : List WorkerRun) : List Event := q.map .worker_done

/-- Is the pipe connection (the context with the invalid descriptor) among
the workers? -/
def pipe_done (q : List WorkerRun) : Bool := q.any fun w => decide (w.fd = GNUPG_INVALID_FD)

/-! ## Observations on results and traces -/

/-- The status the process exited with, if it exited. -/
def Res.exitStatus {α : Type} : Res α → Option Int
  | .exit rc _ => some rc
  | _ => none

/-- Did the code return? -/
def Res.isRet {α : Type} : Res α → Bool
  | .ret _ _ => true
  | _ => false

/-- The value the code returned, if it returned. -/
def Res.value {α : Type} : Res α → Option α
  | .ret a _ => some a
  | _ => none

/-- Is the call a `bind`? -/
def Call.isBind : Call → Bool
  | .assuan_sock_bind _ _ => true
  | _ => false

/-- Is the call a `remove`? -/
def Call.isRemove : Call → Bool
  | .remove _ => true
  | _ => false

/-- Is the call an `accept`? -/
def Call.isAccept : Call → Bool
  | .pth_accept _ => true
  | _ => false

/-- Is the call the final `exit`? -/
def Call.isExit : Call → Bool
  | .exit _ => true
  | _ => false

/-- Is the call neither a `bind`, nor a `remove`, nor the final `exit`? -/
def Call.plain (c : Call) : Bool := !c.isBind && !c.isRemove && !c.isExit

/-- The calls a function made itself: the new calls before `exit` is entered,
which leaves out what the `atexit` handler does. -/
def Res.ownCalls {α : Type} (r : Res α) (g : Globals) : List Call :=
  (r.newCalls g).takeWhile fun c => !c.isExit

/-! ## Example inputs -/

/-- A running multi-server daemon: nothing pending, the socket in a private
directory, the `atexit` handler registered, one live worker. -/
def example_globals : Globals :=
  ⟨0, some "/tmp/gpg-Ab12Cd/S.scdaemon".toList, 0, "/home/u/.gnupg".toList, 0, 0, true, 1, []⟩

/-- Collaborators of a start-up in which everything succeeds: `make_filename`
joins with a slash, `mkdtemp` rewrites the last six characters in place. -/
def example_sys : Sys where
  make_filename := fun a b => a ++ '/' :: b
  mkdtemp := fun d => some (d.take (d.length - 6) ++ "Ab12Cd".toList)
  sock_new := 3
  bind1 := (0, 0)
  bind2 := (0, 0)
  get_nonce := 0
  listen := 0
  calloc_ok := true
  spawn_ok := true

/-- The state in which `main` starts to set up its socket: no socket name yet,
no worker, the `atexit` handler registered, and `home` as home directory. -/
def startup_globals (home : List Char) : Globals :=
  ⟨0, none, 0, home, 0, 0, true, 0, []⟩

/-- A home directory name of `n + 1` characters. -/
def long_home (n : Nat) : List Char := '/' :: List.replicate n 'h'

/-- A start-up that finds a stale socket: the first `bind` fails with
`EADDRINUSE`, the retry succeeds, and then `listen` fails. -/
def stale_sys : Sys :=
  { example_sys with bind1 := (-1, linux.EADDRINUSE), listen := -1 }

/-- A start-up that finds a stale socket and gets rid of it: the first `bind`
fails with `EADDRINUSE`, everything else succeeds. -/
def retry_sys : Sys :=
  { example_sys with bind1 := (-1, linux.EADDRINUSE) }

/-- A wait that ends with nothing to do. -/
def quiet_wait : Wait :=
  ⟨true, [], 1, none, false, false, [], -1, true, true⟩

/-- A wait that reports a connection (accepted as descriptor 7) for which no
context can be allocated. -/
def alloc_fail_wait : Wait :=
  { quiet_wait with readable := true, accept_fd := 7, calloc_ok := false }

/-- A wait that reports a connection, accepted as descriptor 8. -/
def conn_wait : Wait :=
  { quiet_wait with readable := true, accept_fd := 8 }

/-- A wait that reports both a terminate signal and a connection, accepted as
descriptor 8. -/
def sigterm_conn_wait : Wait :=
  { quiet_wait with sig := some SIGTERM, readable := true, accept_fd := 8 }

/-- The calls `cleanup` makes for a given value of `socket_name`. -/
def cleanup_calls : Option (List Char) → List Call
  | some (c :: cs) =>
    .remove (c :: cs) ::
      (match strrchr (c :: cs) '/' with
       | some i => [.rmdir ((c :: cs).take i)]
       | none => [])
  | _ => []

/-- The value of `socket_name` after `cleanup`. -/
def cleared : Option (List Char) → Option (List Char)
  | some (_ :: _) => some []
  | x => x

/-- The globals after `cleanup`. -/
def after_cleanup (g : Globals) : Globals :=
  { g with socket_name := cleared g.socket_name, trace := g.trace ++ cleanup_calls g.socket_name }

/-- The globals after `exit (rc)`: the `atexit` handler has run. -/
def after_exit (rc : Int) (g : Globals) : Globals :=
  let g1 := { g with trace := g.trace ++ [.exit rc] }
  if g.atexit_cleanup then after_cleanup g1 else g1

/-- The forced exit of `handle_signal` for a terminate signal that finds the
state `g`: the counter is incremented, three lines are logged, `cleanup` runs,
then `scd_exit (0)` ends the process. -/
def forced_exit (g : Globals) : Res Unit :=
  .exit (if g.errorcount ≠ 0 then 2 else 0)
    (after_exit (if g.errorcount ≠ 0 then 2 else 0)
      { g with
        shutdown_pending := g.shutdown_pending + 1
        socket_name := cleared g.socket_name
        trace := g.trace ++
          [.log_info "SIGTERM received - still running threads", .log_info "shutdown forced",
            .log_info "scdaemon (GnuPG) stopped"] ++
          cleanup_calls g.socket_name ++ [.gcry_term_secmem] })

/-- A relation between the globals before and after holds for every run of `m`. -/
def Keeps (R : Globals → Globals → Prop) {α : Type} (m : Proc α) : Prop :=
  ∀ g, R g (m g).globals

/-- The number of `pth_accept` calls made so far. -/
def accepts (g : Globals) : Nat := g.trace.countP Call.isAccept

/-- No `pth_accept` call is made between two states. -/
def NoAccept (g g1 : Globals) : Prop := accepts g1 = accepts g

/-- The argument `scd_exit (rc)` passes to `exit`. -/
def scd_exit_arg (rc : Int) (g : Globals) : Int :=
  if rc ≠ 0 then rc else if g.errorcount ≠ 0 then 2 else 0

/-- The exit status `scd_exit (rc)` ends with. -/
def scd_exit_status (rc : Int) (g : Globals) : Int :=
  (if rc ≠ 0 then rc else if g.errorcount ≠ 0 then 2 else 0) % 256

/-! ## Outcome of the bind block -/

/-- The value of `rc` after the bind block of `create_server_socket`: that of
the second `bind` when the retry applies, else that of the first. -/
def last_bind_rc (P : Platform) (E : Sys) (is_standard_name : Int) : Int :=
  if is_standard_name ≠ 0 ∧ E.bind1.1 = -1 ∧ E.bind1.2 = P.EADDRINUSE then E.bind2.1
  else E.bind1.1

/-- The calls of the bind block of `create_server_socket`. -/
def bind_calls (P : Platform) (E : Sys) (is_standard_name : Int) (name : List Char) : List Call :=
  [.assuan_sock_new, .assuan_sock_bind E.sock_new name] ++
    (if is_standard_name ≠ 0 ∧ E.bind1.1 = -1 ∧ E.bind1.2 = P.EADDRINUSE then
      [.remove name, .assuan_sock_bind E.sock_new name] else [])

/-- Did the process abort? -/
def Res.isAbort {α : Type} : Res α → Bool
  | .abort _ => true
  | _ => false

/-- A start-up in which the nonce call returns 1 and `listen` fails. -/
def nonce_listen_fail_sys : Sys :=
  { example_sys with get_nonce := 1, listen := -1 }

/-- A start-up in which the nonce call returns 1 and all else succeeds. -/
def nonce_fail_sys : Sys :=
  { example_sys with get_nonce := 1 }

/-! ## Invariants of code that goes on running -/

/-- The globals with which the process goes on, when the code returned or the
controller is blocked in its wait. -/
def Res.alive {α : Type} : Res α → Option Globals
  | .ret _ g => some g
  | .blocked g => some g
  | _ => none

/-- A relation between the globals before and after holds whenever `m` leaves
the process running. -/
def KeepsAlive (R : Globals → Globals → Prop) {α : Type} (m : Proc α) : Prop :=
  ∀ g g1, (m g).alive = some g1 → R g g1

/-- The shutdown counter is 0, 1 or 2. -/
def CounterInRange (g : Globals) : Prop :=
  g.shutdown_pending = 0 ∨ g.shutdown_pending = 1 ∨ g.shutdown_pending = 2

/-- From a counter in range the counter stays in range and, once non-zero,
stays non-zero. -/
def CounterOk (g g1 : Globals) : Prop :=
  CounterInRange g → CounterInRange g1 ∧ (g.shutdown_pending ≠ 0 → g1.shutdown_pending ≠ 0)

/-- An operation on the shutdown state: a signal handed to `handle_signal`, or
a worker thread that runs to completion. -/
inductive Step where
  | signal (signo : Int)
  | worker (w : WorkerRun)
  deriving DecidableEq, Repr

/-- The operations done one after the other. -/
def run_steps : List Step → Proc Unit
  | [] => pure ()
  | .signal signo :: rest => do
    handle_signal signo
    run_steps rest
  | .worker w :: rest => do
    worker_thread w
    run_steps rest

/-! ## Timer calls -/

/-- Is the call one of the timer and wait calls of the loop: the creation of
the timer, the wait, the release of the timer, the refresh of the reader
status file? -/
def Call.isTimerCall : Call → Bool
  | .pth_event_time _ => true
  | .pth_select_ev _ => true
  | .pth_event_free_time => true
  | .scd_update_reader_status_file => true
  | _ => false

/-- Between two states only calls other than timer calls were made and
`ticker_disabled` is unchanged. -/
def TimerQuiet (g g1 : Globals) : Prop :=
  g1.ticker_disabled = g.ticker_disabled ∧
    ∃ cs, g1.trace = g.trace ++ cs ∧ ∀ c ∈ cs, c.isTimerCall = false

/-- The calls of the tick block of a pass in which the timer occurred. -/
def tick_calls (g : Globals) : List Call :=
  .pth_event_free_time ::
    (if g.ticker_disabled = 0 then [.scd_update_reader_status_file] else [])

/-! ## The parts of a pass of the loop -/

/-- The signal block of a pass: `handle_signal` if the signal event occurred. -/
def signal_part (wt : Wait) : Proc Unit :=
  match wt.sig with
  | some signo => handle_signal signo
  | none => pure ()

/-- The tick block of a pass: if the timer exists and occurred it is released
and `handle_tick` runs; the result tells whether a timer is left. -/
def tick_part (wt : Wait) (time_ev : Bool) : Proc Bool :=
  if time_ev ∧ wt.timer then do
    call .pth_event_free_time
    handle_tick
    pure false
  else pure time_ev

/-- The end of a pass on the normal path: the accept block between the two
changes of the signal mask. -/
def pass_tail (listen_fd : Int) (wt : Wait) (fdset time_ev1 : Bool) : Proc LoopState := do
  call .pth_sigmask_block
  if listen_fd ≠ -1 ∧ (fdset ∧ wt.readable) then
    accept_connection listen_fd wt
  call .pth_sigmask_restore
  pure ⟨fdset, time_ev1⟩

/-- The end of a pass whose wait failed without any event. -/
def pass_retry (wt : Wait) (fdset time_ev : Bool) : Proc LoopState := do
  log_error "pth_select failed - waiting 1s"
  call (.pth_sleep 1)
  run_workers wt.slept
  pure ⟨fdset, time_ev⟩

/-- The part of a pass that follows the wait, put together from its blocks. -/
def after_wait (listen_fd : Int) (wt : Wait) (fdset time_ev : Bool) : Proc LoopState :=
  if wt.ret = -1 then
    if wt.sig.isSome ∨ (time_ev ∧ wt.timer) then do
      signal_part wt
      if time_ev ∧ wt.timer then
        call .pth_event_free_time
        handle_tick
        pure ⟨fdset, false⟩
      else pure ⟨fdset, time_ev⟩
    else pass_retry wt fdset time_ev
  else do
    signal_part wt
    let time_ev1 ← tick_part wt time_ev
    pass_tail listen_fd wt fdset time_ev1

/-- The calls a pass makes up to its wait: the timer if none is left, then
the wait. -/
def wait_calls (fdset time_ev0 : Bool) : List Call :=
  (if time_ev0 then [] else [.pth_event_time TIMERTICK_INTERVAL]) ++ [.pth_select_ev fdset]

/-- A wait that is interrupted by the timer alone. -/
def tick_wait : Wait :=
  { quiet_wait with ret := -1, timer := true }

/-- A wait that is interrupted by an interrupt signal and by the timer at
once. -/
def sigint_tick_wait : Wait :=
  { quiet_wait with ret := -1, sig := some SIGINT, timer := true }

/-- A wait that reports a connection (accepted as descriptor 8) in a pass in
which `pth_event` could not create the timer. -/
def no_timer_conn_wait : Wait :=
  { conn_wait with timer_ok := false }

/-! ## Theorems -/

/-! ### Unfolding lemmas -/

theorem bind_apply {α β : Type} (m : Proc α) (f : α → Proc β) (g : Globals) :
    (m >>= f) g = Proc.bind m f g := rfl

theorem pure_apply {α : Type} (a : α) (g : Globals) : (pure a : Proc α) g = .ret a g := rfl

theorem ite_apply_proc {α : Type} (c : Prop) [Decidable c] (m1 m2 : Proc α) (g : Globals) :
    (if c then m1 else m2) g = if c then m1 g else m2 g := by
  split <;> rfl

theorem cleanup_eq (g : Globals) : cleanup g = .ret () (after_cleanup g) := by
  rcases g with ⟨sp, sn, td, hd, vb, ec, ax, wk, tr⟩
  rcases sn with _ | _ | ⟨c, cs⟩
  · simp [cleanup, bind_apply, Proc.bind, getG, pure_apply, after_cleanup, cleared, cleanup_calls]
  · simp [cleanup, bind_apply, Proc.bind, getG, pure_apply, after_cleanup, cleared, cleanup_calls]
  · cases h : strrchr (c :: cs) '/' <;>
      simp [cleanup, bind_apply, Proc.bind, getG, pure_apply, call, modifyG, h, after_cleanup,
        cleared, cleanup_calls]

theorem libc_exit_eq {α : Type} (rc : Int) (g : Globals) :
    (libc_exit rc : Proc α) g = .exit (rc % 256) (after_exit rc g) := by
  unfold libc_exit after_exit
  by_cases h : g.atexit_cleanup = true <;> simp [h, cleanup_eq]

theorem scd_exit_eq {α : Type} (rc : Int) (g : Globals) :
    (scd_exit rc : Proc α) g =
      .exit (scd_exit_status rc g)
        (after_exit (scd_exit_arg rc g) { g with trace := g.trace ++ [.gcry_term_secmem] }) := by
  simp [scd_exit, bind_apply, Proc.bind, call, modifyG, getG, libc_exit_eq, scd_exit_status,
    scd_exit_arg]

/-- Effect of `start_connection_thread` on `shutdown_pending`. -/
theorem start_connection_thread_shutdown (ctrl : Ctrl) (nonce_rc : Int) (g : Globals) :
    ∃ g1, start_connection_thread ctrl nonce_rc g = .ret () g1 ∧
      g1.workers = g.workers ∧
      g1.shutdown_pending = if ctrl.fd = GNUPG_INVALID_FD then 1 else g.shutdown_pending := by
  by_cases hfd : ctrl.fd = GNUPG_INVALID_FD
  · by_cases hv : g.verbose = 0 <;>
      simp [start_connection_thread, bind_apply, Proc.bind, pure_apply, ite_apply_proc, call,
        modifyG, getG, log_info, scd_init_default_ctrl, scd_deinit_default_ctrl, hfd, hv]
  · by_cases hn : nonce_rc = 0 <;> by_cases hv : g.verbose = 0 <;>
      simp [start_connection_thread, bind_apply, Proc.bind, pure_apply, ite_apply_proc, call,
        modifyG, getG, log_info, scd_init_default_ctrl, scd_deinit_default_ctrl, hfd, hn, hv]

/-- A worker thread always ends; it leaves one worker less and changes
`shutdown_pending` only if it is the pipe connection. -/
theorem worker_thread_eq (w : WorkerRun) (g : Globals) :
    ∃ g1, worker_thread w g = .ret () g1 ∧ g1.workers = g.workers - 1 ∧
      g1.shutdown_pending = if w.fd = GNUPG_INVALID_FD then 1 else g.shutdown_pending := by
  obtain ⟨g1, h1, h2, h3⟩ := start_connection_thread_shutdown ⟨w.fd, 0⟩ w.check_nonce g
  refine ⟨{ g1 with workers := g1.workers - 1 }, ?_, ?_, ?_⟩
  · simp [worker_thread, bind_apply, Proc.bind, h1, modifyG]
  · simp [h2]
  · simpa using h3

/-- A terminate signal below the threshold only counts. -/
theorem handle_signal_sigterm_lt (g : Globals) (h : g.shutdown_pending < 2) :
    handle_signal SIGTERM g = .ret ()
      { g with
        shutdown_pending := g.shutdown_pending + 1
        trace := g.trace ++
          [.log_info (if g.shutdown_pending = 0 then "SIGTERM received - shutting down ..."
            else "SIGTERM received - still running threads")] } := by
  have h2 : ¬ (2 < g.shutdown_pending + 1) := by omega
  by_cases h0 : g.shutdown_pending = 0 <;>
    simp [handle_signal, SIGTERM, SIGHUP, SIGUSR1, SIGUSR2, bind_apply, Proc.bind, pure_apply,
      ite_apply_proc, getG, modifyG, log_info, call, h0, h2]

/-- A terminate signal that finds the counter at 2 or more forces the exit. -/
theorem handle_signal_sigterm_ge (g : Globals) (h : 2 ≤ g.shutdown_pending) :
    ∃ g1, handle_signal SIGTERM g = .exit (scd_exit_status 0 g) g1 ∧
      g1.shutdown_pending = g.shutdown_pending + 1 := by
  have h2 : (2 < g.shutdown_pending + 1) := by omega
  have h0 : g.shutdown_pending ≠ 0 := by omega
  simp [handle_signal, SIGTERM, SIGHUP, SIGUSR1, SIGUSR2, bind_apply, Proc.bind, pure_apply,
    ite_apply_proc, getG, modifyG, log_info, call, h0, h2, cleanup_eq, scd_exit_eq,
    scd_exit_status, scd_exit_arg, after_exit, after_cleanup]
  split <;> simp

/-- C4: `start_connection_thread` always runs to completion; for the pipe
context (invalid descriptor) `shutdown_pending` is 1 afterwards, hence non-zero,
and for a socket context, with or without a nonce failure, it is unchanged. -/
theorem C4_start_connection_thread_shutdown (ctrl : Ctrl) (nonce_rc : Int) (g : Globals) :
    ∃ g1, start_connection_thread ctrl nonce_rc g = .ret () g1 ∧
      (if ctrl.fd = GNUPG_INVALID_FD then g1.shutdown_pending = 1 ∧ g1.shutdown_pending ≠ 0
       else g1.shutdown_pending = g.shutdown_pending) := by
  obtain ⟨g1, h1, _, h3⟩ := start_connection_thread_shutdown ctrl nonce_rc g
  refine ⟨g1, h1, ?_⟩
  by_cases hfd : ctrl.fd = GNUPG_INVALID_FD
  · simp [hfd] at h3 ⊢
    simp [h3]
  · simpa [hfd] using h3

/-- The calls of `start_connection_thread`, which always returns. -/
theorem start_connection_thread_trace (ctrl : Ctrl) (nonce_rc : Int) (g : Globals) :
    ∃ g1, start_connection_thread ctrl nonce_rc g = .ret () g1 ∧
      g1.trace = g.trace ++
        (if ctrl.fd = GNUPG_INVALID_FD then
          [.scd_init_default_ctrl] ++
          (if g.verbose ≠ 0 then [.log_info "handler for fd started"] else []) ++
          [.scd_command_handler GNUPG_INVALID_FD (-1)] ++
          (if g.verbose ≠ 0 then [.log_info "handler for fd terminated"] else []) ++
          [.scd_deinit_default_ctrl, .xfree]
        else if nonce_rc ≠ 0 then
          [.assuan_sock_check_nonce ctrl.fd, .log_info "error reading nonce on fd",
            .assuan_sock_close ctrl.fd, .xfree]
        else
          [.assuan_sock_check_nonce ctrl.fd, .scd_init_default_ctrl] ++
          (if g.verbose ≠ 0 then [.log_info "handler for fd started"] else []) ++
          [.scd_command_handler ctrl.fd (-1)] ++
          (if g.verbose ≠ 0 then [.log_info "handler for fd terminated"] else []) ++
          [.scd_deinit_default_ctrl, .xfree]) := by
  by_cases hfd : ctrl.fd = GNUPG_INVALID_FD
  · by_cases hv : g.verbose = 0 <;>
      simp [start_connection_thread, bind_apply, Proc.bind, pure_apply, ite_apply_proc, call,
        modifyG, getG, log_info, scd_init_default_ctrl, scd_deinit_default_ctrl, hfd, hv]
  · by_cases hn : nonce_rc = 0 <;> by_cases hv : g.verbose = 0 <;>
      simp [start_connection_thread, bind_apply, Proc.bind, pure_apply, ite_apply_proc, call,
        modifyG, getG, log_info, scd_init_default_ctrl, scd_deinit_default_ctrl, hfd, hn, hv]

/-- C5: a socket context whose nonce check fails is closed and freed without
`scd_init_default_ctrl` or `scd_command_handler` being entered; the pipe context
is never nonce-checked and its session starts with reader slot -1.  The calls of
`start_connection_thread` are listed in full for each of the three cases. -/
theorem C5_nonce_failure_starts_no_session (ctrl : Ctrl) (nonce_rc : Int) (g : Globals) :
    ∃ g1, start_connection_thread ctrl nonce_rc g = .ret () g1 ∧
      g1.trace = g.trace ++
        (if ctrl.fd = GNUPG_INVALID_FD then
          [.scd_init_default_ctrl] ++
          (if g.verbose ≠ 0 then [.log_info "handler for fd started"] else []) ++
          [.scd_command_handler GNUPG_INVALID_FD (-1)] ++
          (if g.verbose ≠ 0 then [.log_info "handler for fd terminated"] else []) ++
          [.scd_deinit_default_ctrl, .xfree]
        else if nonce_rc ≠ 0 then
          [.assuan_sock_check_nonce ctrl.fd, .log_info "error reading nonce on fd",
            .assuan_sock_close ctrl.fd, .xfree]
        else
          [.assuan_sock_check_nonce ctrl.fd, .scd_init_default_ctrl] ++
          (if g.verbose ≠ 0 then [.log_info "handler for fd started"] else []) ++
          [.scd_command_handler ctrl.fd (-1)] ++
          (if g.verbose ≠ 0 then [.log_info "handler for fd terminated"] else []) ++
          [.scd_deinit_default_ctrl, .xfree]) :=
  start_connection_thread_trace ctrl nonce_rc g

/-- Events handled one list after the other. -/
theorem handle_events_append (es fs : List Event) (g : Globals) :
    handle_events (es ++ fs) g = Proc.bind (handle_events es) (fun _ => handle_events fs) g := by
  induction es generalizing g with
  | nil => simp [handle_events, Proc.bind, pure_apply]
  | cons e es ih =>
    cases e with
    | sigterm =>
      simp only [List.cons_append, handle_events, bind_apply, Proc.bind]
      cases handle_signal SIGTERM g with
      | ret a g1 => simpa [Proc.bind] using ih g1
      | exit rc g1 => rfl
      | abort g1 => rfl
      | blocked g1 => rfl
    | worker_done w =>
      simp only [List.cons_append, handle_events, bind_apply, Proc.bind]
      cases worker_thread w g with
      | ret a g1 => simpa [Proc.bind] using ih g1
      | exit rc g1 => rfl
      | abort g1 => rfl
      | blocked g1 => rfl

/-- A terminate signal that finds the counter at 2 or more takes the forced
exit. -/
theorem handle_signal_sigterm_forced (g : Globals) (h : 2 ≤ g.shutdown_pending) :
    handle_signal SIGTERM g = forced_exit g := by
  have h2 : (2 < g.shutdown_pending + 1) := by omega
  have h0 : g.shutdown_pending ≠ 0 := by omega
  by_cases he : g.errorcount = 0 <;>
    simp [forced_exit, handle_signal, SIGTERM, SIGHUP, SIGUSR1, SIGUSR2, bind_apply, Proc.bind,
      pure_apply, ite_apply_proc, getG, modifyG, log_info, call, h0, h2, cleanup_eq, scd_exit_eq,
      scd_exit_status, scd_exit_arg, after_cleanup, he]

/-- A terminate signal below the threshold returns with the counter one up. -/
theorem handle_signal_sigterm_counts (g : Globals) (h : g.shutdown_pending < 2) :
    ∃ g1, handle_signal SIGTERM g = .ret () g1 ∧
      g1.shutdown_pending = g.shutdown_pending + 1 :=
  ⟨_, handle_signal_sigterm_lt g h, rfl⟩

/-- Worker completions never end the process; the counter is 1 afterwards when
the pipe connection is among them and unchanged otherwise. -/
theorem handle_events_workers (q : List WorkerRun) (g : Globals) :
    ∃ g1, handle_events (workers_done q) g = .ret () g1 ∧
      g1.shutdown_pending = if pipe_done q = true then 1 else g.shutdown_pending := by
  induction q generalizing g with
  | nil => exact ⟨g, rfl, by simp [pipe_done]⟩
  | cons w q ih =>
    obtain ⟨g1, h1, _, h3⟩ := worker_thread_eq w g
    obtain ⟨g2, h4, h5⟩ := ih g1
    refine ⟨g2, ?_, ?_⟩
    · simp only [workers_done, List.map_cons, handle_events, bind_apply, Proc.bind, h1]
      exact h4
    · rw [h5, h3]
      by_cases hw : w.fd = GNUPG_INVALID_FD <;> simp [pipe_done, hw]

theorem handle_events_ret_append (es fs : List Event) (g g1 : Globals)
    (h : handle_events es g = .ret () g1) :
    handle_events (es ++ fs) g = handle_events fs g1 := by
  rw [handle_events_append]
  simp only [Proc.bind, h]

theorem handle_events_sigterm_cons (es : List Event) (g g1 : Globals)
    (h : handle_signal SIGTERM g = .ret () g1) :
    handle_events (.sigterm :: es) g = handle_events es g1 := by
  simp only [handle_events, bind_apply, Proc.bind, h]

theorem handle_events_sigterm_forced (es : List Event) (g : Globals)
    (h : 2 ≤ g.shutdown_pending) :
    handle_events (.sigterm :: es) g = forced_exit g := by
  simp only [handle_events, bind_apply, Proc.bind, handle_signal_sigterm_forced g h, forced_exit]

/-- C3, as stated, fails: after the pipe worker has completed, the second
terminate signal already ends the process; and when the pipe worker completes
after two terminate signals, the third terminate signal does not end it. -/
theorem C3_counterexample_pipe_completion :
    (handle_events [.worker_done ⟨GNUPG_INVALID_FD, 0⟩, .sigterm, .sigterm]
        example_globals).exitStatus = some 0 ∧
    (handle_events [.sigterm, .sigterm, .worker_done ⟨GNUPG_INVALID_FD, 0⟩, .sigterm]
        example_globals).isRet = true ∧
    (handle_events [.sigterm, .sigterm, .worker_done ⟨GNUPG_INVALID_FD, 0⟩, .sigterm]
        example_globals).globals.shutdown_pending = 2 := by
  decide

/-- C3, amended: from `shutdown_pending = 0`, with `q0`, `q1`, `q2` the worker
completions before the first, second and third terminate signal.  The first
terminate signal never ends the process.  The second one takes the forced exit
(counter, log lines, `cleanup`, `scd_exit (0)`) exactly when the pipe
connection completed before the first signal and not between the first and
the second.  Otherwise the second one returns, and the third one takes the
forced exit, whatever follows and however many workers are live, exactly when
the pipe connection did not complete between the second and the third; when it
did, the third one returns with the counter at 2. -/
theorem C3_third_sigterm_forces_exit (q0 q1 q2 : List WorkerRun) (post : List Event)
    (g : Globals) (h0 : g.shutdown_pending = 0) :
    (∃ g1, handle_events (workers_done q0 ++ [.sigterm]) g = .ret () g1) ∧
    (pipe_done q0 = true ∧ pipe_done q1 = false →
      ∃ g1, handle_events (workers_done q0 ++ .sigterm :: workers_done q1) g = .ret () g1 ∧
        g1.shutdown_pending = 2 ∧
        handle_events (workers_done q0 ++ .sigterm :: (workers_done q1 ++ .sigterm :: post)) g
          = forced_exit g1) ∧
    (pipe_done q0 = false ∨ pipe_done q1 = true →
      (∃ g1, handle_events (workers_done q0 ++ .sigterm :: (workers_done q1 ++ [.sigterm])) g
          = .ret () g1) ∧
      ∃ g2,
        handle_events
            (workers_done q0 ++ .sigterm :: (workers_done q1 ++ .sigterm :: workers_done q2)) g
          = .ret () g2 ∧
        (pipe_done q2 = false →
          g2.shutdown_pending = 2 ∧
          handle_events
              (workers_done q0 ++ .sigterm ::
                (workers_done q1 ++ .sigterm :: (workers_done q2 ++ .sigterm :: post))) g
            = forced_exit g2) ∧
        (pipe_done q2 = true →
          ∃ g3,
            handle_events
                (workers_done q0 ++ .sigterm ::
                  (workers_done q1 ++ .sigterm :: (workers_done q2 ++ [.sigterm]))) g
              = .ret () g3 ∧
            g3.shutdown_pending = 2)) := by
  obtain ⟨ga, ha, hca⟩ := handle_events_workers q0 g
  rw [h0] at hca
  have hlta : ga.shutdown_pending < 2 := by
    rw [hca]
    split <;> decide
  obtain ⟨gb, hsb, hcb⟩ := handle_signal_sigterm_counts ga hlta
  obtain ⟨gc, hc, hcc⟩ := handle_events_workers q1 gb
  have e1 : ∀ fs, handle_events (workers_done q0 ++ .sigterm :: fs) g = handle_events fs gb :=
    fun fs => by rw [handle_events_ret_append _ _ _ _ ha, handle_events_sigterm_cons _ _ _ hsb]
  have e2 : ∀ fs, handle_events (workers_done q0 ++ .sigterm :: (workers_done q1 ++ fs)) g
      = handle_events fs gc :=
    fun fs => by rw [e1, handle_events_ret_append _ _ _ _ hc]
  refine ⟨⟨gb, by rw [e1]; rfl⟩, ?_, ?_⟩
  · rintro ⟨hp0, hp1⟩
    have h2 : gc.shutdown_pending = 2 := by
      rw [hcc, hcb, hca]
      simp [hp0, hp1]
    refine ⟨gc, ?_, h2, ?_⟩
    · rw [e1]
      exact hc
    · rw [e2, handle_events_sigterm_forced _ _ (by omega)]
  · intro hcond
    have h1 : gc.shutdown_pending = 1 := by
      rw [hcc, hcb, hca]
      rcases hcond with h | h <;> cases hq : pipe_done q1 <;> simp_all
    obtain ⟨gd, hsd, hcd⟩ := handle_signal_sigterm_counts gc (by omega)
    obtain ⟨ge, he, hce⟩ := handle_events_workers q2 gd
    have e3 : ∀ fs,
        handle_events
            (workers_done q0 ++ .sigterm ::
              (workers_done q1 ++ .sigterm :: (workers_done q2 ++ fs))) g
          = handle_events fs ge :=
      fun fs => by
        rw [e2, handle_events_sigterm_cons _ _ _ hsd, handle_events_ret_append _ _ _ _ he]
    refine ⟨⟨gd, by rw [e2, handle_events_sigterm_cons _ _ _ hsd]; rfl⟩, ge, ?_, ?_, ?_⟩
    · rw [e2, handle_events_sigterm_cons _ _ _ hsd]
      exact he
    · intro hp2
      have h2 : ge.shutdown_pending = 2 := by
        rw [hce, hcd, h1]
        simp [hp2]
      exact ⟨h2, by rw [e3, handle_events_sigterm_forced _ _ (by omega)]⟩
    · intro hp2
      have h2 : ge.shutdown_pending = 1 := by
        rw [hce]
        simp [hp2]
      obtain ⟨gf, hsf, hcf⟩ := handle_signal_sigterm_counts ge (by omega)
      exact ⟨gf, by rw [e3, handle_events_sigterm_cons _ _ _ hsf]; rfl, by rw [hcf, h2]; rfl⟩

/-- Witness for C3: a terminate signal, the end of the pipe connection, a
second terminate signal and the end of a socket worker leave the process
running with the counter at 2; the third terminate signal takes the forced
exit. -/
theorem C3_third_sigterm_forces_exit_witness :
    ∃ g2,
      handle_events
          (workers_done [] ++ .sigterm ::
            (workers_done [⟨GNUPG_INVALID_FD, 0⟩] ++ .sigterm :: workers_done [⟨7, 0⟩]))
          example_globals
        = .ret () g2 ∧
      g2.shutdown_pending = 2 ∧
      handle_events
          (workers_done [] ++ .sigterm ::
            (workers_done [⟨GNUPG_INVALID_FD, 0⟩] ++ .sigterm ::
              (workers_done [⟨7, 0⟩] ++ .sigterm :: [])))
          example_globals
        = forced_exit g2 := by
  obtain ⟨_, g2, h1, h2, _⟩ :=
    (C3_third_sigterm_forces_exit [] [⟨GNUPG_INVALID_FD, 0⟩] [⟨7, 0⟩] [] example_globals rfl).2.2
      (Or.inr (by decide))
  exact ⟨g2, h1, (h2 (by decide)).1, (h2 (by decide)).2⟩

/-! ### Endpoint naming -/

theorem cleanup_calls_not_bind (n : Option (List Char)) : ∀ c ∈ cleanup_calls n, c.isBind = false := by
  rcases n with _ | _ | ⟨c, cs⟩
  · simp [cleanup_calls]
  · simp [cleanup_calls]
  · cases h : strrchr (c :: cs) '/' <;> simp [cleanup_calls, h, Call.isBind]

/-- The first block makes one call, which is not a `bind`, before it returns. -/
theorem socket_name_candidate_trace (E : Sys) (use_std : Int) (standard_name template name : List Char)
    (g g1 : Globals) (h : socket_name_candidate E use_std standard_name template g = .ret name g1) :
    ∃ c, g1 = { g with trace := g.trace ++ [c] } ∧ c.isBind = false := by
  by_cases hs : use_std = 0
  · cases hr : strrchr template '/' with
    | none =>
      simp [socket_name_candidate, hs, hr, abort] at h
    | some i =>
      cases hm : E.mkdtemp (template.take i) with
      | none =>
        simp [socket_name_candidate, hs, hr, hm, bind_apply, Proc.bind, call, modifyG, log_error,
          scd_exit_eq] at h
      | some d =>
        simp [socket_name_candidate, hs, hr, hm, bind_apply, Proc.bind, call, modifyG,
          pure_apply] at h
        exact ⟨.mkdtemp (template.take i), h.2.symm, rfl⟩
  · simp [socket_name_candidate, hs, bind_apply, Proc.bind, call, modifyG, getG, pure_apply] at h
    exact ⟨.make_filename g.homedir standard_name, h.2.symm, rfl⟩

/-- The checks end the process with status 2 on a name that holds the
separator or is too long. -/
theorem check_socket_name_bad (P : Platform) (name : List Char) (g : Globals)
    (hbad : strchr name P.PATHSEP_C = true ∨ name.length + 1 ≥ P.sun_path_size) :
    ∃ msg, check_socket_name P name g = .exit 2
      (after_exit 2
        { g with
          errorcount := g.errorcount + 1
          trace := g.trace ++ [.log_error msg, .gcry_term_secmem] }) := by
  by_cases hsep : strchr name P.PATHSEP_C = true
  · exact ⟨"PATHSEP_S are not allowed in the socket name", by
      simp [check_socket_name, hsep, bind_apply, Proc.bind, log_error, modifyG, scd_exit_eq,
        scd_exit_status, scd_exit_arg]⟩
  · have hlen : P.sun_path_size ≤ name.length + 1 := by
      rcases hbad with h | h
      · exact absurd h hsep
      · exact h
    exact ⟨"name of socket too long", by
      simp [check_socket_name, hsep, hlen, bind_apply, Proc.bind, log_error, modifyG, scd_exit_eq,
        scd_exit_status, scd_exit_arg, pure_apply]⟩

/-- The checks return a name without the separator that is short enough. -/
theorem check_socket_name_good (P : Platform) (name : List Char) (g : Globals)
    (hsep : strchr name P.PATHSEP_C = false) (hlen : name.length + 1 < P.sun_path_size) :
    check_socket_name P name g = .ret name g := by
  have h : ¬ (P.sun_path_size ≤ name.length + 1) := by omega
  simp [check_socket_name, hsep, h, bind_apply, Proc.bind, pure_apply]

/-- C7: a computed name that holds `PATHSEP_C`, or with
`strlen (name) + 1 >= sizeof sun_path`, makes `create_socket_name` end the
process with status 2; it returns nothing and no `bind` is among its calls. -/
theorem C7_create_socket_name_rejects (P : Platform) (E : Sys) (use_std : Int)
    (standard_name template name : List Char) (g g1 : Globals)
    (hname : socket_name_candidate E use_std standard_name template g = .ret name g1)
    (hbad : strchr name P.PATHSEP_C = true ∨ name.length + 1 ≥ P.sun_path_size) :
    (create_socket_name P E use_std standard_name template g).exitStatus = some 2 ∧
    (create_socket_name P E use_std standard_name template g).value = none ∧
    ∀ c ∈ (create_socket_name P E use_std standard_name template g).newCalls g,
      c.isBind = false := by
  obtain ⟨msg, hchk⟩ := check_socket_name_bad P name g1 hbad
  obtain ⟨c0, hg1, hc0⟩ := socket_name_candidate_trace E use_std standard_name template name g g1 hname
  have hr : create_socket_name P E use_std standard_name template g = .exit 2
      (after_exit 2
        { g1 with
          errorcount := g1.errorcount + 1
          trace := g1.trace ++ [.log_error msg, .gcry_term_secmem] }) := by
    simp [create_socket_name, bind_apply, Proc.bind, hname, hchk]
  rw [hr]
  refine ⟨rfl, rfl, ?_⟩
  intro c hc
  subst hg1
  by_cases hax : g.atexit_cleanup = true
  · simp [Res.newCalls, Res.globals, after_exit, after_cleanup, hax] at hc
    rcases hc with h | h | h | h | h
    · rw [h]; exact hc0
    · rw [h]; rfl
    · rw [h]; rfl
    · rw [h]; rfl
    · exact cleanup_calls_not_bind _ c h
  · simp [Res.newCalls, Res.globals, after_exit, after_cleanup, hax] at hc
    rcases hc with h | h | h | h
    · rw [h]; exact hc0
    · rw [h]; rfl
    · rw [h]; rfl
    · rw [h]; rfl

set_option maxRecDepth 20000 in
/-- Witness for C7: a standard name of 200 characters with the 108 byte limit. -/
theorem C7_create_socket_name_rejects_witness :
    (long_home 188 ++ '/' :: "S.scdaemon".toList).length = 200 ∧
    ((create_socket_name linux example_sys 1 "S.scdaemon".toList
        "/tmp/gpg-XXXXXX/S.scdaemon".toList (startup_globals (long_home 188))).exitStatus = some 2 ∧
      (create_socket_name linux example_sys 1 "S.scdaemon".toList
        "/tmp/gpg-XXXXXX/S.scdaemon".toList (startup_globals (long_home 188))).value = none ∧
      ∀ c ∈ (create_socket_name linux example_sys 1 "S.scdaemon".toList
          "/tmp/gpg-XXXXXX/S.scdaemon".toList (startup_globals (long_home 188))).newCalls
          (startup_globals (long_home 188)),
        c.isBind = false) :=
  ⟨by decide,
    C7_create_socket_name_rejects linux example_sys 1 "S.scdaemon".toList
      "/tmp/gpg-XXXXXX/S.scdaemon".toList (long_home 188 ++ '/' :: "S.scdaemon".toList)
      (startup_globals (long_home 188))
      { startup_globals (long_home 188) with
        trace := [.make_filename (long_home 188) "S.scdaemon".toList] }
      (by rfl) (Or.inr (by decide))⟩

set_option maxRecDepth 20000 in
/-- C8, as stated, fails: a name of 107 characters without the separator fits
into the 108 bytes of `sun_path` together with its NUL, and `create_socket_name`
still ends the process with status 2. -/
theorem C8_counterexample_exact_fit :
    (socket_name_candidate example_sys 1 "S.scdaemon".toList "/tmp/gpg-XXXXXX/S.scdaemon".toList
        (startup_globals (long_home 95))).value
      = some (long_home 95 ++ '/' :: "S.scdaemon".toList) ∧
    strchr (long_home 95 ++ '/' :: "S.scdaemon".toList) linux.PATHSEP_C = false ∧
    (long_home 95 ++ '/' :: "S.scdaemon".toList).length + 1 ≤ linux.sun_path_size ∧
    (create_socket_name linux example_sys 1 "S.scdaemon".toList "/tmp/gpg-XXXXXX/S.scdaemon".toList
        (startup_globals (long_home 95))).exitStatus = some 2 := by
  decide

/-- C8, amended: a computed name without the separator whose length satisfies
`strlen (name) + 1 < sizeof sun_path` is returned unchanged, with no further
call and without ending the process. -/
theorem C8_create_socket_name_accepts (P : Platform) (E : Sys) (use_std : Int)
    (standard_name template name : List Char) (g g1 : Globals)
    (hname : socket_name_candidate E use_std standard_name template g = .ret name g1)
    (hsep : strchr name P.PATHSEP_C = false) (hlen : name.length + 1 < P.sun_path_size) :
    create_socket_name P E use_std standard_name template g = .ret name g1 := by
  simp [create_socket_name, bind_apply, Proc.bind, hname, check_socket_name_good P name g1 hsep hlen]

/-- Witness for C8: the private name of 26 characters is accepted. -/
theorem C8_create_socket_name_accepts_witness :
    create_socket_name linux example_sys 0 "S.scdaemon".toList "/tmp/gpg-XXXXXX/S.scdaemon".toList
        (startup_globals "/home/u/.gnupg".toList)
      = .ret "/tmp/gpg-Ab12Cd/S.scdaemon".toList
        { startup_globals "/home/u/.gnupg".toList with
          trace := [.mkdtemp "/tmp/gpg-XXXXXX".toList] } :=
  C8_create_socket_name_accepts linux example_sys 0 "S.scdaemon".toList
    "/tmp/gpg-XXXXXX/S.scdaemon".toList "/tmp/gpg-Ab12Cd/S.scdaemon".toList
    (startup_globals "/home/u/.gnupg".toList)
    { startup_globals "/home/u/.gnupg".toList with trace := [.mkdtemp "/tmp/gpg-XXXXXX".toList] }
    (by rfl) (by decide) (by decide)

theorem strrchr_none (s : List Char) (c : Char) (h : c ∉ s) : strrchr s c = none := by
  induction s with
  | nil => rfl
  | cons x xs ih =>
    have hx : ¬ x = c := fun e => h (by simp [e])
    have hxs : c ∉ xs := fun e => h (List.mem_cons_of_mem _ e)
    simp [strrchr, ih hxs, hx]

/-- The last slash of `dir/base` is the one written out, when `base` has none. -/
theorem strrchr_slash (dir base : List Char) (h : '/' ∉ base) :
    strrchr (dir ++ '/' :: base) '/' = some dir.length := by
  induction dir with
  | nil => simp [strrchr, strrchr_none base '/' h]
  | cons x xs ih => simp [strrchr, ih]

/-- A template that holds a slash splits at its last slash. -/
theorem template_split (template : List Char) (h : '/' ∈ template) :
    ∃ dir base, template = dir ++ '/' :: base ∧ '/' ∉ base := by
  induction template with
  | nil => simp at h
  | cons x xs ih =>
    by_cases hxs : '/' ∈ xs
    · obtain ⟨dir, base, h1, h2⟩ := ih hxs
      exact ⟨x :: dir, base, by rw [h1]; rfl, h2⟩
    · have hx : x = '/' := by
        rcases List.mem_cons.1 h with h1 | h1
        · exact h1.symm
        · exact absurd h1 hxs
      exact ⟨[], xs, by rw [hx]; rfl, hxs⟩

/-- C9: in the branch without a standard socket, for a template `dir/base`
(`base` without slash) and a directory `d` that `mkdtemp` wrote in place of
`dir`, the name is `d/base`, as long as the template, and it is what
`create_socket_name` checks and returns; in the standard branch the name is
`make_filename (homedir, standard_name)` and `mkdtemp` is not called. -/
theorem C9_create_socket_name_value (P : Platform) (E : Sys) (standard_name dir base d : List Char)
    (g : Globals) (hbase : '/' ∉ base) (hmk : E.mkdtemp dir = some d)
    (hlen : d.length = dir.length) :
    (socket_name_candidate E 0 standard_name (dir ++ '/' :: base) g
        = .ret (d ++ '/' :: base) { g with trace := g.trace ++ [.mkdtemp dir] } ∧
      (d ++ '/' :: base).length = (dir ++ '/' :: base).length ∧
      create_socket_name P E 0 standard_name (dir ++ '/' :: base) g
        = check_socket_name P (d ++ '/' :: base) { g with trace := g.trace ++ [.mkdtemp dir] } ∧
      ∀ n g2, create_socket_name P E 0 standard_name (dir ++ '/' :: base) g = .ret n g2 →
        n = d ++ '/' :: base) ∧
    (∀ use_std template, use_std ≠ 0 →
      socket_name_candidate E use_std standard_name template g
        = .ret (E.make_filename g.homedir standard_name)
          { g with trace := g.trace ++ [.make_filename g.homedir standard_name] } ∧
      create_socket_name P E use_std standard_name template g
        = check_socket_name P (E.make_filename g.homedir standard_name)
          { g with trace := g.trace ++ [.make_filename g.homedir standard_name] }) := by
  have hcand : socket_name_candidate E 0 standard_name (dir ++ '/' :: base) g
      = .ret (d ++ '/' :: base) { g with trace := g.trace ++ [.mkdtemp dir] } := by
    simp [socket_name_candidate, strrchr_slash dir base hbase, hmk, bind_apply, Proc.bind, call,
      modifyG, pure_apply]
  have hfull : create_socket_name P E 0 standard_name (dir ++ '/' :: base) g
      = check_socket_name P (d ++ '/' :: base) { g with trace := g.trace ++ [.mkdtemp dir] } := by
    simp [create_socket_name, bind_apply, Proc.bind, hcand]
  refine ⟨⟨hcand, by simp [hlen], hfull, ?_⟩, ?_⟩
  · intro n g2 hret
    rw [hfull] at hret
    by_cases hok : strchr (d ++ '/' :: base) P.PATHSEP_C = false ∧
        (d ++ '/' :: base).length + 1 < P.sun_path_size
    · rw [check_socket_name_good P _ _ hok.1 hok.2] at hret
      injection hret with h1 _
      exact h1.symm
    · have hbad : strchr (d ++ '/' :: base) P.PATHSEP_C = true ∨
          (d ++ '/' :: base).length + 1 ≥ P.sun_path_size := by
        by_cases hs : strchr (d ++ '/' :: base) P.PATHSEP_C = true
        · exact Or.inl hs
        · right
          simp only [Bool.not_eq_true] at hs
          exact Nat.le_of_not_lt fun h => hok ⟨hs, h⟩
      obtain ⟨msg, hex⟩ := check_socket_name_bad P (d ++ '/' :: base)
        { g with trace := g.trace ++ [.mkdtemp dir] } hbad
      rw [hex] at hret
      cases hret
  · intro use_std template hstd
    have hcand2 : socket_name_candidate E use_std standard_name template g
        = .ret (E.make_filename g.homedir standard_name)
          { g with trace := g.trace ++ [.make_filename g.homedir standard_name] } := by
      simp [socket_name_candidate, hstd, bind_apply, Proc.bind, call, modifyG, getG, pure_apply]
    exact ⟨hcand2, by simp [create_socket_name, bind_apply, Proc.bind, hcand2]⟩

/-- Witness for C9: the template of `main` with the directory `mkdtemp` made. -/
theorem C9_create_socket_name_value_witness :
    create_socket_name linux example_sys 0 "S.scdaemon".toList
        ("/tmp/gpg-XXXXXX".toList ++ '/' :: "S.scdaemon".toList)
        (startup_globals "/home/u/.gnupg".toList)
      = .ret "/tmp/gpg-Ab12Cd/S.scdaemon".toList
        { startup_globals "/home/u/.gnupg".toList with
          trace := [.mkdtemp "/tmp/gpg-XXXXXX".toList] } :=
  ((C9_create_socket_name_value linux example_sys "S.scdaemon".toList "/tmp/gpg-XXXXXX".toList
    "S.scdaemon".toList "/tmp/gpg-Ab12Cd".toList (startup_globals "/home/u/.gnupg".toList)
    (by decide) (by rfl) (by decide)).1.2.2.1).trans (by rfl)

/-! ### Endpoint server -/

/-- The calls before `exit` is entered do not depend on the `atexit` handler. -/
theorem ownCalls_after_exit {α : Type} (rc rc1 : Int) (g g1 : Globals) (cs : List Call)
    (h : g1.trace = g.trace ++ cs) :
    (Res.exit rc (after_exit rc1 g1) : Res α).ownCalls g = cs.takeWhile fun c => !c.isExit := by
  have key : ∀ (xs rest : List Call),
      (xs ++ Call.exit rc1 :: rest).takeWhile (fun c => !c.isExit)
        = xs.takeWhile fun c => !c.isExit := by
    intro xs rest
    induction xs with
    | nil => simp [List.takeWhile, Call.isExit]
    | cons x xs ih =>
      by_cases hx : x.isExit = true <;> simp [List.takeWhile, hx, ih]
  by_cases hax : g1.atexit_cleanup = true
  · simp only [Res.ownCalls, Res.newCalls, Res.globals, after_exit, after_cleanup, hax, if_true, h,
      List.append_assoc, List.drop_left, List.singleton_append]
    exact key cs _
  · simp only [Bool.not_eq_true] at hax
    simp only [Res.ownCalls, Res.newCalls, Res.globals, after_exit, hax, h, Bool.false_eq_true,
      if_false, List.append_assoc, List.drop_left, List.singleton_append]
    exact key cs []

/-- The first block, when the socket exists and the name fits. -/
theorem server_socket_bind_eq (P : Platform) (E : Sys) (std : Int) (name : List Char)
    (g : Globals) (hfd : E.sock_new ≠ GNUPG_INVALID_FD)
    (hlen : name.length + 1 < P.sun_path_size) :
    server_socket_bind P E std name g =
      if std ≠ 0 ∧ E.bind1.1 = -1 ∧ E.bind1.2 = P.EADDRINUSE then
        .ret (E.sock_new, E.bind2.1)
          { g with
            trace := g.trace ++
              [.assuan_sock_new, .assuan_sock_bind E.sock_new name, .remove name,
                .assuan_sock_bind E.sock_new name] }
      else
        .ret (E.sock_new, E.bind1.1)
          { g with
            trace := g.trace ++ [.assuan_sock_new, .assuan_sock_bind E.sock_new name] } := by
  by_cases hretry : std ≠ 0 ∧ E.bind1.1 = -1 ∧ E.bind1.2 = P.EADDRINUSE
  · rw [if_pos hretry]
    simp [server_socket_bind, bind_apply, Proc.bind, pure_apply, ite_apply_proc, call, modifyG,
      hfd, hlen, hretry]
  · rw [if_neg hretry]
    simp only [server_socket_bind, bind_apply, Proc.bind, pure_apply, ite_apply_proc, call,
      modifyG, hfd, hlen, if_neg hretry, if_false, not_true_eq_false, List.append_assoc,
      List.singleton_append]

/-- The first block makes no `bind` when the socket is missing or the
assertion on the length fails. -/
theorem server_socket_bind_fail (P : Platform) (E : Sys) (std : Int) (name : List Char)
    (g : Globals) (h : ¬ (E.sock_new ≠ GNUPG_INVALID_FD ∧ name.length + 1 < P.sun_path_size)) :
    (server_socket_bind P E std name g).value = none ∧
    (server_socket_bind P E std name g).ownCalls g = [.assuan_sock_new] ∨
    (server_socket_bind P E std name g).value = none ∧
    (server_socket_bind P E std name g).ownCalls g
      = [.assuan_sock_new, .log_error "cannot create socket", .gcry_term_secmem] := by
  by_cases hfd : E.sock_new = GNUPG_INVALID_FD
  · right
    have hr : server_socket_bind P E std name g = .exit 2
        (after_exit 2
          { g with
            errorcount := g.errorcount + 1
            trace := g.trace ++
              [.assuan_sock_new, .log_error "cannot create socket", .gcry_term_secmem] }) := by
      simp [server_socket_bind, bind_apply, Proc.bind, pure_apply, ite_apply_proc, call, modifyG,
        log_error, scd_exit_eq, scd_exit_status, scd_exit_arg, hfd]
    rw [hr, ownCalls_after_exit 2 2 g _ _ rfl]
    exact ⟨rfl, by simp [List.takeWhile, Call.isExit]⟩
  · left
    have hlen : ¬ (name.length + 1 < P.sun_path_size) := fun hl => h ⟨hfd, hl⟩
    have hr : server_socket_bind P E std name g
        = .abort { g with trace := g.trace ++ [.assuan_sock_new] } := by
      simp [server_socket_bind, bind_apply, Proc.bind, pure_apply, ite_apply_proc, call, modifyG,
        abort, hfd, hlen]
    rw [hr]
    exact ⟨rfl, by simp [Res.ownCalls, Res.newCalls, Res.globals, List.takeWhile, Call.isExit]⟩

/-- The second block: it returns `fd` or ends the process with status 2, its
own calls `L` hold no `bind` and no `remove`, and it returns when the bind
succeeded, the nonce call did not return -1 and `listen` succeeded. -/
theorem server_socket_listen_cases (E : Sys) (name : List Char) (fd rc : Int) (g : Globals) :
    ∃ L e, (∀ c ∈ L, c.plain = true) ∧
      (server_socket_listen E name fd rc g
          = .ret fd { g with errorcount := e, trace := g.trace ++ L } ∨
        server_socket_listen E name fd rc g
          = .exit 2 (after_exit 2 { g with errorcount := e, trace := g.trace ++ L })) ∧
      (rc ≠ -1 → E.get_nonce ≠ -1 → E.listen ≠ -1 →
        server_socket_listen E name fd rc g
          = .ret fd { g with errorcount := e, trace := g.trace ++ L }) := by
  by_cases hrc : rc = -1
  · refine ⟨[.log_error "error binding socket", .assuan_sock_close fd, .gcry_term_secmem],
      g.errorcount + 1, by simp [Call.plain, Call.isBind, Call.isRemove, Call.isExit],
      Or.inr ?_, fun h => absurd hrc h⟩
    simp [server_socket_listen, bind_apply, Proc.bind, pure_apply, ite_apply_proc, call, modifyG,
      getG, log_error, log_info, scd_exit_eq, scd_exit_status, scd_exit_arg, hrc]
  · by_cases hn1 : E.get_nonce = -1
    · refine ⟨[.assuan_sock_get_nonce name, .log_error "error getting nonce for the socket",
          .log_error "error binding socket", .assuan_sock_close fd, .gcry_term_secmem],
        g.errorcount + 1 + 1, by simp [Call.plain, Call.isBind, Call.isRemove, Call.isExit],
        Or.inr ?_, fun _ h => absurd hn1 h⟩
      simp [server_socket_listen, bind_apply, Proc.bind, pure_apply, ite_apply_proc, call,
        modifyG, getG, log_error, log_info, scd_exit_eq, scd_exit_status, scd_exit_arg, hrc, hn1]
    · by_cases hl : E.listen = -1
      · by_cases hn0 : E.get_nonce = 0
        · refine ⟨[.assuan_sock_get_nonce name, .listen fd 5, .log_error "listen() failed",
              .assuan_sock_close fd, .gcry_term_secmem],
            g.errorcount + 1, by simp [Call.plain, Call.isBind, Call.isRemove, Call.isExit],
            Or.inr ?_, fun _ _ h => absurd hl h⟩
          simp [server_socket_listen, bind_apply, Proc.bind, pure_apply, ite_apply_proc, call,
            modifyG, getG, log_error, log_info, scd_exit_eq, scd_exit_status, scd_exit_arg, hrc, hn0, hl]
        · refine ⟨[.assuan_sock_get_nonce name, .log_error "error getting nonce for the socket",
              .listen fd 5, .log_error "listen() failed", .assuan_sock_close fd,
              .gcry_term_secmem],
            g.errorcount + 1 + 1, by simp [Call.plain, Call.isBind, Call.isRemove, Call.isExit],
            Or.inr ?_, fun _ _ h => absurd hl h⟩
          simp [server_socket_listen, bind_apply, Proc.bind, pure_apply, ite_apply_proc, call,
            modifyG, getG, log_error, log_info, scd_exit_eq, scd_exit_status, scd_exit_arg, hrc, hn0, hn1, hl]
      · have hret : ∀ (L : List Call) (e : Nat),
            server_socket_listen E name fd rc g
              = .ret fd { g with errorcount := e, trace := g.trace ++ L } →
            (∀ c ∈ L, c.plain = true) →
            ∃ L e, (∀ c ∈ L, c.plain = true) ∧
              (server_socket_listen E name fd rc g
                  = .ret fd { g with errorcount := e, trace := g.trace ++ L } ∨
                server_socket_listen E name fd rc g
                  = .exit 2 (after_exit 2 { g with errorcount := e, trace := g.trace ++ L })) ∧
              (rc ≠ -1 → E.get_nonce ≠ -1 → E.listen ≠ -1 →
                server_socket_listen E name fd rc g
                  = .ret fd { g with errorcount := e, trace := g.trace ++ L }) :=
          fun L e h hp => ⟨L, e, hp, Or.inl h, fun _ _ _ => h⟩
        by_cases hn0 : E.get_nonce = 0 <;> by_cases hv : g.verbose = 0
        · exact hret [.assuan_sock_get_nonce name, .listen fd 5] g.errorcount
            (by simp [server_socket_listen, bind_apply, Proc.bind, pure_apply, ite_apply_proc,
              call, modifyG, getG, log_error, log_info, hrc, hn0, hl, hv])
            (by simp [Call.plain, Call.isBind, Call.isRemove, Call.isExit])
        · exact hret [.assuan_sock_get_nonce name, .listen fd 5, .log_info "listening on socket"]
            g.errorcount
            (by simp [server_socket_listen, bind_apply, Proc.bind, pure_apply, ite_apply_proc,
              call, modifyG, getG, log_error, log_info, hrc, hn0, hl, hv])
            (by simp [Call.plain, Call.isBind, Call.isRemove, Call.isExit])
        · exact hret [.assuan_sock_get_nonce name,
              .log_error "error getting nonce for the socket", .listen fd 5] (g.errorcount + 1)
            (by simp [server_socket_listen, bind_apply, Proc.bind, pure_apply, ite_apply_proc,
              call, modifyG, getG, log_error, log_info, hrc, hn0, hn1, hl, hv])
            (by simp [Call.plain, Call.isBind, Call.isRemove, Call.isExit])
        · exact hret [.assuan_sock_get_nonce name,
              .log_error "error getting nonce for the socket", .listen fd 5,
              .log_info "listening on socket"] (g.errorcount + 1)
            (by simp [server_socket_listen, bind_apply, Proc.bind, pure_apply, ite_apply_proc,
              call, modifyG, getG, log_error, log_info, hrc, hn0, hn1, hl, hv])
            (by simp [Call.plain, Call.isBind, Call.isRemove, Call.isExit])

theorem takeWhile_no_exit (cs : List Call) (hcs : ∀ c ∈ cs, c.isExit = false) :
    cs.takeWhile (fun c => !c.isExit) = cs := by
  rw [List.takeWhile_eq_self_iff]
  intro c hc
  simp [hcs c hc]

theorem ownCalls_ret {α : Type} (a : α) (g g1 : Globals) (cs : List Call)
    (h : g1.trace = g.trace ++ cs) (hcs : ∀ c ∈ cs, c.isExit = false) :
    (Res.ret a g1).ownCalls g = cs := by
  simp only [Res.ownCalls, Res.newCalls, Res.globals, h, List.drop_left]
  exact takeWhile_no_exit cs hcs

/-- The calls `create_server_socket` makes before it returns or enters `exit`,
when the socket exists and the name fits: the bind, the retry if it applies,
and then calls that are neither `bind` nor `remove`. -/
theorem create_server_socket_own (P : Platform) (E : Sys) (std : Int) (name : List Char)
    (g : Globals) (hfd : E.sock_new ≠ GNUPG_INVALID_FD)
    (hlen : name.length + 1 < P.sun_path_size) :
    ∃ L, (∀ c ∈ L, c.plain = true) ∧
      (create_server_socket P E std name g).ownCalls g =
        [.assuan_sock_new, .assuan_sock_bind E.sock_new name] ++
        (if std ≠ 0 ∧ E.bind1.1 = -1 ∧ E.bind1.2 = P.EADDRINUSE then
          [.remove name, .assuan_sock_bind E.sock_new name] else []) ++ L ∧
      (std ≠ 0 ∧ E.bind1.1 = -1 ∧ E.bind1.2 = P.EADDRINUSE →
        E.bind2.1 ≠ -1 → E.get_nonce ≠ -1 → E.listen ≠ -1 →
        ∃ g1, create_server_socket P E std name g = .ret E.sock_new g1) := by
  have hplain : ∀ (L : List Call), (∀ c ∈ L, c.plain = true) → ∀ c ∈ L, c.isExit = false := by
    intro L hL c hc
    have := hL c hc
    simp only [Call.plain, Bool.and_eq_true, Bool.not_eq_true'] at this
    exact this.2
  by_cases hretry : std ≠ 0 ∧ E.bind1.1 = -1 ∧ E.bind1.2 = P.EADDRINUSE
  · obtain ⟨L, e, hp, hcase, hok⟩ := server_socket_listen_cases E name E.sock_new E.bind2.1
      { g with
        trace := g.trace ++
          [.assuan_sock_new, .assuan_sock_bind E.sock_new name, .remove name,
            .assuan_sock_bind E.sock_new name] }
    have hB : ∀ c ∈ [Call.assuan_sock_new, .assuan_sock_bind E.sock_new name, .remove name,
        .assuan_sock_bind E.sock_new name] ++ L, c.isExit = false := by
      intro c hc
      rcases List.mem_append.1 hc with h | h
      · simp only [List.mem_cons, List.mem_singleton, List.not_mem_nil, or_false] at h
        rcases h with h | h | h | h <;> rw [h] <;> rfl
      · exact hplain L hp c h
    have hunf : create_server_socket P E std name g
        = server_socket_listen E name E.sock_new E.bind2.1
          { g with
            trace := g.trace ++
              [.assuan_sock_new, .assuan_sock_bind E.sock_new name, .remove name,
                .assuan_sock_bind E.sock_new name] } := by
      simp only [create_server_socket, bind_apply, Proc.bind,
        server_socket_bind_eq P E std name g hfd hlen, if_pos hretry]
    refine ⟨L, hp, ?_, fun _ h2 h3 h4 => ⟨_, by rw [hunf]; exact hok h2 h3 h4⟩⟩
    rw [hunf, if_pos hretry]
    rcases hcase with h | h
    · rw [h]
      exact ownCalls_ret _ _ _ _ (by simp) hB
    · rw [h, ownCalls_after_exit 2 2 g _ _ (by simp; rfl)]
      exact takeWhile_no_exit _ hB
  · obtain ⟨L, e, hp, hcase, _⟩ := server_socket_listen_cases E name E.sock_new E.bind1.1
      { g with trace := g.trace ++ [.assuan_sock_new, .assuan_sock_bind E.sock_new name] }
    have hB : ∀ c ∈ [Call.assuan_sock_new, .assuan_sock_bind E.sock_new name] ++ L,
        c.isExit = false := by
      intro c hc
      rcases List.mem_append.1 hc with h | h
      · simp only [List.mem_cons, List.mem_singleton, List.not_mem_nil, or_false] at h
        rcases h with h | h <;> rw [h] <;> rfl
      · exact hplain L hp c h
    have hunf : create_server_socket P E std name g
        = server_socket_listen E name E.sock_new E.bind1.1
          { g with trace := g.trace ++ [.assuan_sock_new, .assuan_sock_bind E.sock_new name] } := by
      simp only [create_server_socket, bind_apply, Proc.bind,
        server_socket_bind_eq P E std name g hfd hlen, if_neg hretry]
    refine ⟨L, hp, ?_, fun h => absurd h hretry⟩
    rw [hunf, if_neg hretry, List.append_nil]
    rcases hcase with h | h
    · rw [h]
      exact ownCalls_ret _ _ _ _ (by simp) hB
    · rw [h, ownCalls_after_exit 2 2 g _ _ (by simp; rfl)]
      exact takeWhile_no_exit _ hB

/-- Code that does not return hands its final state to whatever follows. -/
theorem bind_globals_of_value_none {α β : Type} (m : Proc α) (f : α → Proc β) (g : Globals)
    (h : (m g).value = none) : (Proc.bind m f g).globals = (m g).globals := by
  unfold Proc.bind
  cases hm : m g with
  | ret a g1 => rw [hm] at h; cases h
  | exit rc g1 => rfl
  | abort g1 => rfl
  | blocked g1 => rfl

/-- C10, as stated, fails in its last part: on a standard name the first
`bind` fails with `EADDRINUSE` and the retry succeeds, yet `listen` fails and
the function ends the process with status 2 instead of returning the
descriptor. -/
theorem C10_counterexample_listen_fails :
    stale_sys.bind1 = (-1, linux.EADDRINUSE) ∧ stale_sys.bind2.1 = 0 ∧
    (create_server_socket linux stale_sys 1 "/home/u/.gnupg/S.scdaemon".toList
        (startup_globals "/home/u/.gnupg".toList)).value = none ∧
    (create_server_socket linux stale_sys 1 "/home/u/.gnupg/S.scdaemon".toList
        (startup_globals "/home/u/.gnupg".toList)).exitStatus = some 2 := by
  decide

/-- C10, amended: `create_server_socket` makes at most two `bind` calls.  When
the socket exists and the name fits, it makes the second one exactly when
`is_standard_name` is set and the first failed with `EADDRINUSE`, and then
its first four calls are socket, bind, `remove (name)`, bind, with no other
`remove`; otherwise it makes one `bind` and no `remove`.  When the retry
succeeds, the nonce call does not return -1 and `listen` succeeds, it
returns the descriptor. -/
theorem C10_bind_retry (P : Platform) (E : Sys) (std : Int) (name : List Char) (g : Globals) :
    ((create_server_socket P E std name g).ownCalls g).countP Call.isBind ≤ 2 ∧
    (E.sock_new ≠ GNUPG_INVALID_FD → name.length + 1 < P.sun_path_size →
      (((create_server_socket P E std name g).ownCalls g).countP Call.isBind = 2 ↔
        (std ≠ 0 ∧ E.bind1.1 = -1 ∧ E.bind1.2 = P.EADDRINUSE)) ∧
      ((std ≠ 0 ∧ E.bind1.1 = -1 ∧ E.bind1.2 = P.EADDRINUSE) →
        ((create_server_socket P E std name g).ownCalls g).take 4
          = [.assuan_sock_new, .assuan_sock_bind E.sock_new name, .remove name,
              .assuan_sock_bind E.sock_new name] ∧
        ((create_server_socket P E std name g).ownCalls g).countP Call.isRemove = 1) ∧
      (¬ (std ≠ 0 ∧ E.bind1.1 = -1 ∧ E.bind1.2 = P.EADDRINUSE) →
        ((create_server_socket P E std name g).ownCalls g).countP Call.isBind = 1 ∧
        ((create_server_socket P E std name g).ownCalls g).countP Call.isRemove = 0) ∧
      ((std ≠ 0 ∧ E.bind1.1 = -1 ∧ E.bind1.2 = P.EADDRINUSE) →
        E.bind2.1 ≠ -1 → E.get_nonce ≠ -1 → E.listen ≠ -1 →
        ∃ g1, create_server_socket P E std name g = .ret E.sock_new g1)) := by
  have main : E.sock_new ≠ GNUPG_INVALID_FD → name.length + 1 < P.sun_path_size →
      ((create_server_socket P E std name g).ownCalls g).countP Call.isBind
          = (if std ≠ 0 ∧ E.bind1.1 = -1 ∧ E.bind1.2 = P.EADDRINUSE then 2 else 1) ∧
      ((create_server_socket P E std name g).ownCalls g).countP Call.isRemove
          = (if std ≠ 0 ∧ E.bind1.1 = -1 ∧ E.bind1.2 = P.EADDRINUSE then 1 else 0) ∧
      ((std ≠ 0 ∧ E.bind1.1 = -1 ∧ E.bind1.2 = P.EADDRINUSE) →
        ((create_server_socket P E std name g).ownCalls g).take 4
          = [.assuan_sock_new, .assuan_sock_bind E.sock_new name, .remove name,
              .assuan_sock_bind E.sock_new name]) ∧
      ((std ≠ 0 ∧ E.bind1.1 = -1 ∧ E.bind1.2 = P.EADDRINUSE) →
        E.bind2.1 ≠ -1 → E.get_nonce ≠ -1 → E.listen ≠ -1 →
        ∃ g1, create_server_socket P E std name g = .ret E.sock_new g1) := by
    intro hfd hlen
    obtain ⟨L, hp, hown, hok⟩ := create_server_socket_own P E std name g hfd hlen
    have hLb : L.countP Call.isBind = 0 := by
      rw [List.countP_eq_zero]
      intro c hc
      have := hp c hc
      simp only [Call.plain, Bool.and_eq_true, Bool.not_eq_true'] at this
      simp [this.1.1]
    have hLr : L.countP Call.isRemove = 0 := by
      rw [List.countP_eq_zero]
      intro c hc
      have := hp c hc
      simp only [Call.plain, Bool.and_eq_true, Bool.not_eq_true'] at this
      simp [this.1.2]
    rw [hown]
    by_cases hretry : std ≠ 0 ∧ E.bind1.1 = -1 ∧ E.bind1.2 = P.EADDRINUSE
    · simp only [if_pos hretry]
      refine ⟨?_, ?_, fun _ => ?_, hok⟩
      · simp [List.countP_cons, Call.isBind, hLb]
      · simp [List.countP_cons, Call.isRemove, hLr]
      · simp
    · simp only [if_neg hretry]
      refine ⟨?_, ?_, fun h => absurd h hretry, hok⟩
      · simp [List.countP_cons, Call.isBind, hLb]
      · simp [List.countP_cons, Call.isRemove, hLr]
  constructor
  · by_cases h : E.sock_new ≠ GNUPG_INVALID_FD ∧ name.length + 1 < P.sun_path_size
    · rw [(main h.1 h.2).1]
      split <;> omega
    · have hg : (create_server_socket P E std name g).globals
          = (server_socket_bind P E std name g).globals := by
        rcases server_socket_bind_fail P E std name g h with ⟨hv, _⟩ | ⟨hv, _⟩ <;>
          exact bind_globals_of_value_none _ _ g hv
      have hown : (create_server_socket P E std name g).ownCalls g
          = (server_socket_bind P E std name g).ownCalls g := by
        simp only [Res.ownCalls, Res.newCalls, hg]
      rw [hown]
      rcases server_socket_bind_fail P E std name g h with ⟨_, ho⟩ | ⟨_, ho⟩ <;>
        simp [ho, List.countP_cons, Call.isBind]
  · intro hfd hlen
    obtain ⟨hb, hr, htake, hok⟩ := main hfd hlen
    refine ⟨?_, fun h => ⟨htake h, by rw [hr, if_pos h]⟩, fun h => ?_, hok⟩
    · rw [hb]
      by_cases hretry : std ≠ 0 ∧ E.bind1.1 = -1 ∧ E.bind1.2 = P.EADDRINUSE
      · rw [if_pos hretry]
        exact ⟨fun _ => hretry, fun _ => rfl⟩
      · rw [if_neg hretry]
        exact ⟨fun h => absurd h (by decide), fun h => absurd h hretry⟩
    · rw [hb, hr, if_neg h, if_neg h]
      exact ⟨rfl, rfl⟩

/-- Witness for C10: a stale standard socket is removed once, the second
`bind` succeeds and the descriptor 3 is returned. -/
theorem C10_bind_retry_witness :
    (((create_server_socket linux retry_sys 1 "/home/u/.gnupg/S.scdaemon".toList
        (startup_globals "/home/u/.gnupg".toList)).ownCalls
        (startup_globals "/home/u/.gnupg".toList)).take 4
      = [.assuan_sock_new, .assuan_sock_bind 3 "/home/u/.gnupg/S.scdaemon".toList,
          .remove "/home/u/.gnupg/S.scdaemon".toList,
          .assuan_sock_bind 3 "/home/u/.gnupg/S.scdaemon".toList] ∧
      ((create_server_socket linux retry_sys 1 "/home/u/.gnupg/S.scdaemon".toList
        (startup_globals "/home/u/.gnupg".toList)).ownCalls
        (startup_globals "/home/u/.gnupg".toList)).countP Call.isRemove = 1) ∧
    ∃ g1, create_server_socket linux retry_sys 1 "/home/u/.gnupg/S.scdaemon".toList
        (startup_globals "/home/u/.gnupg".toList) = .ret 3 g1 :=
  ⟨((C10_bind_retry linux retry_sys 1 "/home/u/.gnupg/S.scdaemon".toList
      (startup_globals "/home/u/.gnupg".toList)).2 (by decide) (by decide)).2.1 (by decide),
    ((C10_bind_retry linux retry_sys 1 "/home/u/.gnupg/S.scdaemon".toList
      (startup_globals "/home/u/.gnupg".toList)).2 (by decide) (by decide)).2.2.2
      (by decide) (by decide) (by decide) (by decide)⟩

/-! ### Allocation failure -/

/-- C6, as stated, fails for a context allocated after an accept: the loop
logs the error, closes the accepted descriptor 7 and goes on; it accepts the
next connection and starts a worker for it, and the process has not exited. -/
theorem C6_counterexample_loop_goes_on :
    (handle_connections 3 [alloc_fail_wait, conn_wait] example_globals).exitStatus = none ∧
    (handle_connections 3 [alloc_fail_wait, conn_wait] example_globals).newCalls example_globals
      = [.pth_event_time 2, .pth_select_ev true, .pth_sigmask_block, .pth_accept 3, .xtrycalloc,
          .log_error "error allocating connection control data", .close 7, .pth_sigmask_restore,
          .pth_select_ev true, .pth_sigmask_block, .pth_accept 3, .xtrycalloc, .pth_spawn 8,
          .pth_sigmask_restore] ∧
    (handle_connections 3 [alloc_fail_wait, conn_wait] example_globals).globals.workers
      = example_globals.workers + 1 := by
  decide

/-- C6, amended: when the context of the pipe connection cannot be allocated
in `main`, the error is logged and the process exits with status 2 before any
thread is spawned; when the context of an accepted connection cannot be
allocated in `handle_connections`, the error is logged, the accepted
descriptor is closed, no worker is started and the accept block returns to
the loop. -/
theorem C6_allocation_failure (E : Sys) (fd listen_fd : Int) (ws : List Wait) (wt : Wait)
    (g : Globals) :
    (E.calloc_ok = false →
      main_pipe_server_run E fd ws g = .exit 2
        (after_exit 2
          { g with
            errorcount := g.errorcount + 1
            trace := g.trace ++
              [.xtrycalloc, .log_error "error allocating connection control data",
                .gcry_term_secmem] })) ∧
    (wt.accept_fd ≠ -1 → wt.calloc_ok = false →
      accept_connection listen_fd wt g = .ret ()
        { g with
          errorcount := g.errorcount + 1
          trace := g.trace ++
            [.pth_accept listen_fd, .xtrycalloc,
              .log_error "error allocating connection control data", .close wt.accept_fd] }) := by
  constructor
  · intro h
    simp [main_pipe_server_run, bind_apply, Proc.bind, ite_apply_proc, call, modifyG, log_error,
      scd_exit_eq, scd_exit_status, scd_exit_arg, h]
  · intro h1 h2
    simp [accept_connection, bind_apply, Proc.bind, ite_apply_proc, call, modifyG, log_error,
      h1, h2]

/-- Witness for C6: both failures at concrete inputs. -/
theorem C6_allocation_failure_witness :
    (main_pipe_server_run { example_sys with calloc_ok := false } (-1) [] example_globals).exitStatus
      = some 2 ∧
    (accept_connection 3 alloc_fail_wait example_globals).isRet = true :=
  ⟨by
      rw [(C6_allocation_failure { example_sys with calloc_ok := false } (-1) 3 [] alloc_fail_wait
        example_globals).1 rfl]
      rfl,
    by
      rw [(C6_allocation_failure example_sys (-1) 3 [] alloc_fail_wait example_globals).2
        (by decide) rfl]
      rfl⟩

/-! ### Event loop -/

/-- C1 fails on the code.  One wait reports a terminate signal together with
a readable listening descriptor while nothing is pending: `handle_signal`
makes `shutdown_pending` 1 and, in the same pass, `pth_accept` is called and a
worker is started for the new connection. -/
theorem C1_accept_in_pass_that_starts_draining :
    example_globals.shutdown_pending = 0 ∧
    (handle_connections 3 [sigterm_conn_wait] example_globals).newCalls example_globals
      = [.pth_event_time 2, .pth_select_ev true,
          .log_info "SIGTERM received - shutting down ...", .pth_sigmask_block, .pth_accept 3,
          .xtrycalloc, .pth_spawn 8, .pth_sigmask_restore] ∧
    (handle_connections 3 [sigterm_conn_wait] example_globals).globals.shutdown_pending = 1 ∧
    (handle_connections 3 [sigterm_conn_wait] example_globals).globals.workers
      = example_globals.workers + 1 := by
  decide

/-! ### Calls that a pass of the loop cannot make -/

theorem keeps_bind {R : Globals → Globals → Prop} (htrans : ∀ a b c, R a b → R b c → R a c)
    {α β : Type} {m : Proc α} {f : α → Proc β} (hm : Keeps R m) (hf : ∀ a, Keeps R (f a)) :
    Keeps R (m >>= f) := by
  intro g
  have h1 := hm g
  simp only [bind_apply, Proc.bind]
  cases hmg : m g with
  | ret a g1 =>
    rw [hmg] at h1
    exact htrans _ _ _ h1 (hf a g1)
  | exit rc g1 => rw [hmg] at h1; exact h1
  | abort g1 => rw [hmg] at h1; exact h1
  | blocked g1 => rw [hmg] at h1; exact h1

theorem keeps_pure {R : Globals → Globals → Prop} (hrefl : ∀ a, R a a) {α : Type} (a : α) :
    Keeps R (pure a : Proc α) := fun g => hrefl g

theorem keeps_ite {R : Globals → Globals → Prop} {α : Type} (c : Prop) [Decidable c]
    {m1 m2 : Proc α} (h1 : Keeps R m1) (h2 : Keeps R m2) : Keeps R (if c then m1 else m2) := by
  split
  · exact h1
  · exact h2

theorem noAccept_refl (g : Globals) : NoAccept g g := rfl

theorem noAccept_trans (a b c : Globals) (h1 : NoAccept a b) (h2 : NoAccept b c) :
    NoAccept a c := by
  unfold NoAccept at *
  rw [h2, h1]

theorem noAccept_call (c : Call) (h : c.isAccept = false) : Keeps NoAccept (call c) := by
  intro g
  simp [NoAccept, accepts, call, modifyG, Res.globals, List.countP_cons, h]

theorem noAccept_log_info (msg : String) : Keeps NoAccept (log_info msg) :=
  noAccept_call _ rfl

theorem noAccept_log_error (msg : String) : Keeps NoAccept (log_error msg) := by
  intro g
  simp [NoAccept, accepts, log_error, modifyG, Res.globals, List.countP_cons, Call.isAccept]

theorem noAccept_cleanup_calls (n : Option (List Char)) :
    (cleanup_calls n).countP Call.isAccept = 0 := by
  rcases n with _ | _ | ⟨c, cs⟩
  · simp [cleanup_calls]
  · simp [cleanup_calls]
  · cases h : strrchr (c :: cs) '/' <;> simp [cleanup_calls, h, Call.isAccept, List.countP_cons]

theorem noAccept_cleanup : Keeps NoAccept cleanup := by
  intro g
  simp [NoAccept, accepts, cleanup_eq, Res.globals, after_cleanup, noAccept_cleanup_calls]

theorem noAccept_scd_exit {α : Type} (rc : Int) : Keeps NoAccept (scd_exit rc : Proc α) := by
  intro g
  by_cases hax : g.atexit_cleanup = true <;>
    simp [NoAccept, accepts, scd_exit_eq, Res.globals, after_exit, after_cleanup, hax,
      noAccept_cleanup_calls, List.countP_cons, Call.isAccept]

theorem noAccept_getG : Keeps NoAccept getG := fun _ => rfl

theorem noAccept_modifyG (f : Globals → Globals) (hf : ∀ g, (f g).trace = g.trace) :
    Keeps NoAccept (modifyG f) := by
  intro g
  simp [NoAccept, accepts, modifyG, Res.globals, hf]

theorem noAccept_handle_signal (signo : Int) : Keeps NoAccept (handle_signal signo) := by
  unfold handle_signal
  repeat' (first
    | rfl
    | with_reducible exact keeps_pure noAccept_refl _
    | with_reducible exact noAccept_log_info _
    | with_reducible exact noAccept_log_error _
    | with_reducible apply noAccept_call
    | with_reducible exact noAccept_cleanup
    | with_reducible exact noAccept_scd_exit _
    | with_reducible exact noAccept_getG
    | with_reducible exact noAccept_modifyG _ (fun _ => rfl)
    | with_reducible apply keeps_ite
    | with_reducible apply keeps_bind noAccept_trans
    | with_reducible intro _)

theorem noAccept_handle_tick : Keeps NoAccept handle_tick := by
  unfold handle_tick
  repeat' (first
    | rfl
    | with_reducible exact keeps_pure noAccept_refl _
    | with_reducible exact noAccept_log_info _
    | with_reducible exact noAccept_log_error _
    | with_reducible apply noAccept_call
    | with_reducible exact noAccept_cleanup
    | with_reducible exact noAccept_scd_exit _
    | with_reducible exact noAccept_getG
    | with_reducible exact noAccept_modifyG _ (fun _ => rfl)
    | with_reducible apply keeps_ite
    | with_reducible apply keeps_bind noAccept_trans
    | with_reducible intro _)

theorem noAccept_start_connection_thread (ctrl : Ctrl) (rc : Int) :
    Keeps NoAccept (start_connection_thread ctrl rc) := by
  intro g
  obtain ⟨g1, h1, h2⟩ := start_connection_thread_trace ctrl rc g
  rw [h1]
  simp only [NoAccept, accepts, Res.globals, h2, List.countP_append]
  split_ifs <;> simp [List.countP_cons, Call.isAccept]

theorem noAccept_worker_thread (w : WorkerRun) : Keeps NoAccept (worker_thread w) := by
  unfold worker_thread
  exact keeps_bind noAccept_trans (noAccept_start_connection_thread _ _)
    (fun _ => noAccept_modifyG _ (fun _ => rfl))

theorem noAccept_run_workers (ws : List WorkerRun) : Keeps NoAccept (run_workers ws) := by
  induction ws with
  | nil => exact keeps_pure noAccept_refl _
  | cons w ws ih =>
    unfold run_workers
    exact keeps_bind noAccept_trans (noAccept_worker_thread w) (fun _ => ih)

/-- A pass whose descriptor set is empty makes no `pth_accept` call. -/
theorem noAccept_loop_wait (listen_fd : Int) (wt : Wait) (time_ev0 : Bool) :
    Keeps NoAccept (loop_wait listen_fd wt false time_ev0) := by
  unfold loop_wait
  simp only [Bool.false_eq_true, false_and, and_false, if_false]
  cases hsig : wt.sig <;> simp only [] <;>
  repeat' (first
    | rfl
    | with_reducible exact keeps_pure noAccept_refl _
    | with_reducible exact noAccept_log_error _
    | with_reducible apply noAccept_call
    | with_reducible exact noAccept_run_workers _
    | with_reducible exact noAccept_handle_tick
    | with_reducible exact noAccept_handle_signal _
    | with_reducible apply keeps_ite
    | with_reducible apply keeps_bind noAccept_trans
    | with_reducible intro _)

/-- A pass of the loop that starts with a shutdown pending makes no
`pth_accept` call, whatever the wait reports: the gate of the code is the test
at the top of the pass. -/
theorem loop_body_no_accept_when_draining (listen_fd : Int) (wt : Wait) (st : LoopState)
    (g : Globals) (h : g.shutdown_pending ≠ 0) :
    accepts (loop_body listen_fd wt st g).globals = accepts g := by
  have := noAccept_loop_wait listen_fd wt st.time_ev g
  simpa [loop_body, bind_apply, Proc.bind, getG, h, NoAccept] using this

/-! ### Signals other than the counted terminate signal -/

/-- The interrupt signal: two log lines, `cleanup`, then `scd_exit (0)`. -/
theorem handle_signal_sigint_eq (g : Globals) :
    handle_signal SIGINT g =
      .exit (if g.errorcount ≠ 0 then 2 else 0)
        (after_exit (if g.errorcount ≠ 0 then 2 else 0)
          { g with
            socket_name := cleared g.socket_name
            trace := g.trace ++
              [.log_info "SIGINT received - immediate shutdown",
                .log_info "scdaemon (GnuPG) stopped"] ++
              cleanup_calls g.socket_name ++ [.gcry_term_secmem] }) := by
  by_cases h : g.errorcount = 0 <;>
    simp [handle_signal, SIGINT, SIGTERM, SIGHUP, SIGUSR1, SIGUSR2, bind_apply, Proc.bind,
      log_info, call, modifyG, cleanup_eq, scd_exit_eq, scd_exit_status, scd_exit_arg,
      after_cleanup, h]

/-- A signal that is neither the terminate nor the interrupt signal only logs. -/
theorem handle_signal_other_eq (signo : Int) (g : Globals) (h1 : signo ≠ SIGTERM)
    (h2 : signo ≠ SIGINT) :
    handle_signal signo g = .ret ()
      { g with
        trace := g.trace ++
          (if signo = SIGHUP then
            [.log_info "SIGHUP received - re-reading configuration and resetting cards"]
          else if signo = SIGUSR1 then
            [.log_info "SIGUSR1 received - printing internal information:", .pth_ctrl_dumpstate,
              .app_dump_state]
          else if signo = SIGUSR2 then [.log_info "SIGUSR2 received - no action defined"]
          else [.log_info "signal received - no action defined"]) } := by
  by_cases a : signo = SIGHUP
  · simp [handle_signal, a, bind_apply, Proc.bind, log_info, call, modifyG]
  · by_cases b : signo = SIGUSR1
    · subst b
      simp [handle_signal, SIGHUP, SIGUSR1, bind_apply, Proc.bind, log_info, call, modifyG]
    · by_cases c : signo = SIGUSR2
      · subst c
        simp [handle_signal, SIGHUP, SIGUSR1, SIGUSR2, bind_apply, Proc.bind, log_info, call,
          modifyG]
      · simp [handle_signal, a, b, c, h1, h2, bind_apply, Proc.bind, log_info, call, modifyG]

theorem cleanup_calls_not_exit (n : Option (List Char)) :
    ∀ c ∈ cleanup_calls n, c.isExit = false := by
  rcases n with _ | _ | ⟨c, cs⟩
  · simp [cleanup_calls]
  · simp [cleanup_calls]
  · cases h : strrchr (c :: cs) '/' <;> simp [cleanup_calls, h, Call.isExit]

/-- C12: in every state `handle_signal (SIGINT)` logs, runs `cleanup` and ends
the process through `scd_exit (0)`; it does not return, whatever
`shutdown_pending` and the number of live workers are. -/
theorem C12_sigint_immediate_shutdown (g : Globals) :
    handle_signal SIGINT g =
      .exit (if g.errorcount ≠ 0 then 2 else 0)
        (after_exit (if g.errorcount ≠ 0 then 2 else 0)
          { g with
            socket_name := cleared g.socket_name
            trace := g.trace ++
              [.log_info "SIGINT received - immediate shutdown",
                .log_info "scdaemon (GnuPG) stopped"] ++
              cleanup_calls g.socket_name ++ [.gcry_term_secmem] }) ∧
    (handle_signal SIGINT g).isRet = false ∧
    (handle_signal SIGINT g).ownCalls g =
      [.log_info "SIGINT received - immediate shutdown", .log_info "scdaemon (GnuPG) stopped"] ++
        cleanup_calls g.socket_name ++ [.gcry_term_secmem] := by
  refine ⟨handle_signal_sigint_eq g, by rw [handle_signal_sigint_eq]; rfl, ?_⟩
  rw [handle_signal_sigint_eq, ownCalls_after_exit _ _ g _ _ (by simp; rfl)]
  apply takeWhile_no_exit
  intro c hc
  simp only [List.mem_append, List.mem_cons, List.mem_singleton, List.not_mem_nil, or_false] at hc
  rcases hc with h | h | h | h
  · rw [h]; rfl
  · rw [h]; rfl
  · exact cleanup_calls_not_exit _ c h
  · rw [h]; rfl

/-- C13: for every signal number other than `SIGTERM` and `SIGINT`,
`handle_signal` returns and leaves every global as it was, `shutdown_pending`
and the socket name included; only log and dump calls are added to the trace. -/
theorem C13_other_signals_change_nothing (signo : Int) (g : Globals) (h1 : signo ≠ SIGTERM)
    (h2 : signo ≠ SIGINT) :
    ∃ g1, handle_signal signo g = .ret () g1 ∧
      g1.shutdown_pending = g.shutdown_pending ∧ g1.socket_name = g.socket_name ∧
      g1 = { g with trace := g1.trace } ∧
      ∀ c ∈ g1.trace.drop g.trace.length,
        (∃ m, c = .log_info m) ∨ c = .pth_ctrl_dumpstate ∨ c = .app_dump_state := by
  refine ⟨_, handle_signal_other_eq signo g h1 h2, rfl, rfl, rfl, ?_⟩
  intro c hc
  simp only [List.drop_left] at hc
  split_ifs at hc <;> simp at hc
  · exact Or.inl ⟨_, hc⟩
  · rcases hc with h | h | h
    · exact Or.inl ⟨_, h⟩
    · exact Or.inr (Or.inl h)
    · exact Or.inr (Or.inr h)
  · exact Or.inl ⟨_, hc⟩
  · exact Or.inl ⟨_, hc⟩

/-- Witness for C13: the reload signal in the running daemon. -/
theorem C13_other_signals_change_nothing_witness :
    ∃ g1, handle_signal SIGHUP example_globals = .ret () g1 ∧
      g1.shutdown_pending = example_globals.shutdown_pending ∧
      g1.socket_name = example_globals.socket_name ∧
      g1 = { example_globals with trace := g1.trace } ∧
      ∀ c ∈ g1.trace.drop example_globals.trace.length,
        (∃ m, c = .log_info m) ∨ c = .pth_ctrl_dumpstate ∨ c = .app_dump_state :=
  C13_other_signals_change_nothing SIGHUP example_globals (by decide) (by decide)

/-- C19 fails as stated for a non-zero `rc` outside 1..255: the status of a
process is the low eight bits of the argument of `exit`, so `scd_exit (256)`
calls `exit (256)` and the process ends with status 0, even after an error was
logged. -/
theorem C19_counterexample_status_byte :
    ((scd_exit 256 : Proc Unit) { example_globals with errorcount := 1 }).exitStatus = some 0 ∧
    ((scd_exit 256 : Proc Unit) { example_globals with errorcount := 1 }).newCalls
        { example_globals with errorcount := 1 }
      = [.gcry_term_secmem, .exit 256, .remove "/tmp/gpg-Ab12Cd/S.scdaemon".toList,
          .rmdir "/tmp/gpg-Ab12Cd".toList] := by
  decide

/-- C19 (amended): `scd_exit (rc)` ends the process with the low eight bits of
`rc` as status when `rc` is non-zero, which is `rc` itself for `0 < rc < 256`,
and, when `rc` is 0, with 2 when errors were counted and with 0 when none was;
so the interrupt signal, and the terminate signal that finds the counter at 2
(the third one), end the process with status 0 exactly when the error count is
0, and with status 2 otherwise. -/
theorem C19_exit_status (rc : Int) (g : Globals) :
    ((scd_exit rc : Proc Unit) g).exitStatus
      = some ((if rc ≠ 0 then rc else if g.errorcount ≠ 0 then 2 else 0) % 256) ∧
    (0 < rc → rc < 256 → ((scd_exit rc : Proc Unit) g).exitStatus = some rc) ∧
    (rc = 0 →
      ((scd_exit rc : Proc Unit) g).exitStatus = some (if g.errorcount ≠ 0 then 2 else 0)) ∧
    (handle_signal SIGINT g).exitStatus = some (if g.errorcount = 0 then 0 else 2) ∧
    ((handle_signal SIGINT g).exitStatus = some 0 ↔ g.errorcount = 0) ∧
    (g.shutdown_pending = 2 →
      (handle_signal SIGTERM g).exitStatus = some (if g.errorcount = 0 then 0 else 2) ∧
      ((handle_signal SIGTERM g).exitStatus = some 0 ↔ g.errorcount = 0)) := by
  have hexit : ((scd_exit rc : Proc Unit) g).exitStatus
      = some ((if rc ≠ 0 then rc else if g.errorcount ≠ 0 then 2 else 0) % 256) := by
    rw [scd_exit_eq]
    rfl
  have hint : (handle_signal SIGINT g).exitStatus = some (if g.errorcount = 0 then 0 else 2) := by
    rw [handle_signal_sigint_eq]
    by_cases h : g.errorcount = 0 <;> simp [Res.exitStatus, h]
  refine ⟨hexit, fun h1 h2 => ?_, fun h0 => ?_, hint, ?_, fun h2 => ?_⟩
  · rw [hexit, if_pos (by omega), Int.emod_eq_of_lt (by omega) h2]
  · rw [hexit, if_neg (by simp [h0])]
    by_cases h : g.errorcount = 0 <;> simp [h]
  · rw [hint]
    by_cases h : g.errorcount = 0 <;> simp [h]
  · obtain ⟨g1, h1, _⟩ := handle_signal_sigterm_ge g (by omega)
    have hterm : (handle_signal SIGTERM g).exitStatus
        = some (if g.errorcount = 0 then 0 else 2) := by
      rw [h1]
      by_cases h : g.errorcount = 0 <;> simp [Res.exitStatus, scd_exit_status, h]
    refine ⟨hterm, ?_⟩
    rw [hterm]
    by_cases h : g.errorcount = 0 <;> simp [h]

/-- Witness for C19: `scd_exit (2)` ends with status 2, and the third
terminate signal after an error was logged ends the process with status 2. -/
theorem C19_exit_status_witness :
    ((scd_exit 2 : Proc Unit) example_globals).exitStatus = some 2 ∧
    (handle_signal SIGTERM { example_globals with shutdown_pending := 2, errorcount := 1 }).exitStatus
      = some 2 :=
  ⟨(C19_exit_status 2 example_globals).2.1 (by decide) (by decide),
    ((C19_exit_status 0 { example_globals with shutdown_pending := 2, errorcount := 1 }).2.2.2.2.2
      (by decide)).1⟩

/-! ### Cleanup -/

/-- C14, as stated, fails for a socket name without a slash: the first
`cleanup` removes the file, clears the name and removes no directory. -/
theorem C14_counterexample_no_directory :
    (cleanup { example_globals with socket_name := some "S.scdaemon".toList }).newCalls
        { example_globals with socket_name := some "S.scdaemon".toList }
      = [.remove "S.scdaemon".toList] ∧
    (cleanup { example_globals with socket_name := some "S.scdaemon".toList }).globals.socket_name
      = some [] := by
  decide

/-- C14, amended: for a non-empty socket name the first `cleanup` removes the
file, then, when the name holds a slash, the directory named before its last
slash, and leaves the name empty; a second `cleanup` makes no call and changes
nothing, so two calls have the effect of one; `scd_get_socket_name` is the
name before and `NULL` afterwards. -/
theorem C14_cleanup_once (g : Globals) (name : List Char) (hname : g.socket_name = some name)
    (hne : name ≠ []) :
    cleanup g = .ret ()
      { g with
        socket_name := some []
        trace := g.trace ++ .remove name ::
          (match strrchr name '/' with
           | some i => [.rmdir (name.take i)]
           | none => []) } ∧
    (∀ dir base, name = dir ++ '/' :: base → '/' ∉ base →
      (cleanup g).newCalls g = [.remove name, .rmdir dir]) ∧
    ('/' ∉ name → (cleanup g).newCalls g = [.remove name]) ∧
    (∀ g1, cleanup g = .ret () g1 → cleanup g1 = .ret () g1) ∧
    (cleanup >>= fun _ => cleanup) g = cleanup g ∧
    scd_get_socket_name g = some name ∧
    (∀ g1, cleanup g = .ret () g1 → scd_get_socket_name g1 = none) := by
  obtain ⟨x, xs, rfl⟩ : ∃ x xs, name = x :: xs := by
    cases name with
    | nil => exact absurd rfl hne
    | cons x xs => exact ⟨x, xs, rfl⟩
  have hc : cleanup g = .ret ()
      { g with
        socket_name := some []
        trace := g.trace ++ .remove (x :: xs) ::
          (match strrchr (x :: xs) '/' with
           | some i => [.rmdir ((x :: xs).take i)]
           | none => []) } := by
    rw [cleanup_eq]
    simp [after_cleanup, hname, cleared, cleanup_calls]
  have hsecond : ∀ g1, cleanup g = .ret () g1 → cleanup g1 = .ret () g1 := by
    intro g1 h1
    rw [hc] at h1
    injection h1 with _ h1
    subst h1
    rw [cleanup_eq]
    simp [after_cleanup, cleared, cleanup_calls]
  refine ⟨hc, ?_, ?_, hsecond, ?_, ?_, ?_⟩
  · intro dir base hsplit hbase
    rw [hc]
    simp only [Res.newCalls, Res.globals, List.drop_left]
    rw [hsplit, strrchr_slash dir base hbase]
    simp
  · intro hno
    rw [hc]
    simp only [Res.newCalls, Res.globals, List.drop_left]
    rw [strrchr_none _ _ hno]
  · simp only [bind_apply, Proc.bind]
    rw [hc]
    exact hsecond _ hc
  · simp [scd_get_socket_name, hname]
  · intro g1 h1
    rw [hc] at h1
    injection h1 with _ h1
    subst h1
    rfl

/-- Witness for C14: the private socket of the running daemon. -/
theorem C14_cleanup_once_witness :
    (cleanup example_globals).newCalls example_globals
      = [.remove "/tmp/gpg-Ab12Cd/S.scdaemon".toList, .rmdir "/tmp/gpg-Ab12Cd".toList] :=
  (C14_cleanup_once example_globals "/tmp/gpg-Ab12Cd/S.scdaemon".toList rfl (by decide)).2.1
    "/tmp/gpg-Ab12Cd".toList "S.scdaemon".toList (by decide) (by decide)

/-! ### Endpoint server: failures and the nonce -/

/-- Sequenced code returns only if its first part returned. -/
theorem bind_ret_inv {α β : Type} (m : Proc α) (f : α → Proc β) (g g2 : Globals) (b : β)
    (h : Proc.bind m f g = .ret b g2) : ∃ a g1, m g = .ret a g1 ∧ f a g1 = .ret b g2 := by
  unfold Proc.bind at h
  cases hm : m g with
  | ret a g1 => rw [hm] at h; exact ⟨a, g1, rfl, h⟩
  | exit rc g1 => rw [hm] at h; cases h
  | abort g1 => rw [hm] at h; cases h
  | blocked g1 => rw [hm] at h; cases h

/-- The second block of `create_server_socket` in full. -/
theorem server_socket_listen_eq (E : Sys) (name : List Char) (fd rc : Int) (g : Globals) :
    server_socket_listen E name fd rc g =
      if rc = -1 then
        .exit 2 (after_exit 2
          { g with
            errorcount := g.errorcount + 1
            trace := g.trace ++
              [.log_error "error binding socket", .assuan_sock_close fd, .gcry_term_secmem] })
      else if E.get_nonce = -1 then
        .exit 2 (after_exit 2
          { g with
            errorcount := g.errorcount + 1 + 1
            trace := g.trace ++
              [.assuan_sock_get_nonce name, .log_error "error getting nonce for the socket",
                .log_error "error binding socket", .assuan_sock_close fd, .gcry_term_secmem] })
      else if E.listen = -1 then
        .exit 2 (after_exit 2
          { g with
            errorcount := g.errorcount + (if E.get_nonce ≠ 0 then 1 else 0) + 1
            trace := g.trace ++ [.assuan_sock_get_nonce name] ++
              (if E.get_nonce ≠ 0 then [.log_error "error getting nonce for the socket"] else []) ++
              [.listen fd 5, .log_error "listen() failed", .assuan_sock_close fd,
                .gcry_term_secmem] })
      else
        .ret fd
          { g with
            errorcount := g.errorcount + (if E.get_nonce ≠ 0 then 1 else 0)
            trace := g.trace ++ [.assuan_sock_get_nonce name] ++
              (if E.get_nonce ≠ 0 then [.log_error "error getting nonce for the socket"] else []) ++
              [.listen fd 5] ++
              (if g.verbose ≠ 0 then [.log_info "listening on socket"] else []) } := by
  by_cases hrc : rc = -1
  · simp [server_socket_listen, bind_apply, Proc.bind, pure_apply, ite_apply_proc, call, modifyG,
      getG, log_error, log_info, scd_exit_eq, scd_exit_status, scd_exit_arg, hrc]
  · by_cases hn1 : E.get_nonce = -1
    · simp [server_socket_listen, bind_apply, Proc.bind, pure_apply, ite_apply_proc, call,
        modifyG, getG, log_error, log_info, scd_exit_eq, scd_exit_status, scd_exit_arg, hrc, hn1]
    · by_cases hl : E.listen = -1
      · by_cases hn0 : E.get_nonce = 0
        · simp [server_socket_listen, bind_apply, Proc.bind, pure_apply, ite_apply_proc, call,
            modifyG, getG, log_error, log_info, scd_exit_eq, scd_exit_status, scd_exit_arg, hrc, hn0, hl]
        · simp [server_socket_listen, bind_apply, Proc.bind, pure_apply, ite_apply_proc, call,
            modifyG, getG, log_error, log_info, scd_exit_eq, scd_exit_status, scd_exit_arg, hrc, hn0, hn1, hl]
      · by_cases hn0 : E.get_nonce = 0 <;> by_cases hv : g.verbose = 0
        · simp [server_socket_listen, bind_apply, Proc.bind, pure_apply, ite_apply_proc, call,
            modifyG, getG, log_error, log_info, hrc, hn0, hl, hv]
        · simp [server_socket_listen, bind_apply, Proc.bind, pure_apply, ite_apply_proc, call,
            modifyG, getG, log_error, log_info, hrc, hn0, hl, hv]
        · simp [server_socket_listen, bind_apply, Proc.bind, pure_apply, ite_apply_proc, call,
            modifyG, getG, log_error, log_info, hrc, hn0, hn1, hl, hv]
        · simp [server_socket_listen, bind_apply, Proc.bind, pure_apply, ite_apply_proc, call,
            modifyG, getG, log_error, log_info, hrc, hn0, hn1, hl, hv]

/-- Function `create_server_socket` is its second block run after the calls of
the first, when the socket exists and the name fits. -/
theorem create_server_socket_eq (P : Platform) (E : Sys) (std : Int) (name : List Char)
    (g : Globals) (hfd : E.sock_new ≠ GNUPG_INVALID_FD)
    (hlen : name.length + 1 < P.sun_path_size) :
    create_server_socket P E std name g =
      server_socket_listen E name E.sock_new (last_bind_rc P E std)
        { g with trace := g.trace ++ bind_calls P E std name } := by
  by_cases hretry : std ≠ 0 ∧ E.bind1.1 = -1 ∧ E.bind1.2 = P.EADDRINUSE
  · simp only [create_server_socket, bind_apply, Proc.bind,
      server_socket_bind_eq P E std name g hfd hlen, last_bind_rc, bind_calls, if_pos hretry,
      List.append_assoc, List.cons_append, List.nil_append]
  · simp only [create_server_socket, bind_apply, Proc.bind,
      server_socket_bind_eq P E std name g hfd hlen, last_bind_rc, bind_calls, if_neg hretry,
      List.append_assoc, List.cons_append, List.nil_append, List.append_nil]

/-- Function `create_server_socket` returns only when the socket exists and the
name fits. -/
theorem create_server_socket_ret_pre (P : Platform) (E : Sys) (std : Int) (name : List Char)
    (g g1 : Globals) (fd : Int) (h : create_server_socket P E std name g = .ret fd g1) :
    E.sock_new ≠ GNUPG_INVALID_FD ∧ name.length + 1 < P.sun_path_size := by
  by_contra hcon
  have hbind : (server_socket_bind P E std name g).value = none := by
    rcases server_socket_bind_fail P E std name g hcon with ⟨hv, _⟩ | ⟨hv, _⟩ <;> exact hv
  simp only [create_server_socket, bind_apply] at h
  obtain ⟨a, g2, h2, _⟩ := bind_ret_inv _ _ g g1 fd h
  rw [h2] at hbind
  cases hbind

theorem bind_calls_no_exit (P : Platform) (E : Sys) (std : Int) (name : List Char) :
    ∀ c ∈ bind_calls P E std name, c.isExit = false := by
  intro c hc
  unfold bind_calls at hc
  split_ifs at hc <;> simp at hc
  · rcases hc with h | h | h | h <;> rw [h] <;> rfl
  · rcases hc with h | h <;> rw [h] <;> rfl

/-- The whole of `create_server_socket` when the last `bind` returned -1. -/
theorem create_server_socket_bind_failed (P : Platform) (E : Sys) (std : Int) (name : List Char)
    (g : Globals) (hfd : E.sock_new ≠ GNUPG_INVALID_FD)
    (hlen : name.length + 1 < P.sun_path_size) (hrc : last_bind_rc P E std = -1) :
    create_server_socket P E std name g = .exit 2
      (after_exit 2
        { g with
          errorcount := g.errorcount + 1
          trace := g.trace ++ (bind_calls P E std name ++
            [.log_error "error binding socket", .assuan_sock_close E.sock_new,
              .gcry_term_secmem]) }) := by
  rw [create_server_socket_eq P E std name g hfd hlen, server_socket_listen_eq, if_pos hrc]
  simp only [List.append_assoc]

/-- C11: when the socket exists and the name fits, a first `bind` that fails
with no retry applying, or a retry that fails, makes `create_server_socket`
log, close the socket and end the process through `scd_exit (2)`; its calls
are then the binds followed by these three, with no `listen`.  A returned
descriptor is the socket, the last `bind` did not fail, and `listen` with
backlog 5 was called on it. -/
theorem C11_bind_failure_is_fatal (P : Platform) (E : Sys) (std : Int) (name : List Char)
    (g : Globals) :
    (E.sock_new ≠ GNUPG_INVALID_FD → name.length + 1 < P.sun_path_size →
      ((E.bind1.1 = -1 ∧ ¬ (std ≠ 0 ∧ E.bind1.1 = -1 ∧ E.bind1.2 = P.EADDRINUSE)) ∨
        ((std ≠ 0 ∧ E.bind1.1 = -1 ∧ E.bind1.2 = P.EADDRINUSE) ∧ E.bind2.1 = -1)) →
      (create_server_socket P E std name g).exitStatus = some 2 ∧
      (create_server_socket P E std name g).ownCalls g
        = bind_calls P E std name ++
          [.log_error "error binding socket", .assuan_sock_close E.sock_new,
            .gcry_term_secmem] ∧
      ∀ fd n, Call.listen fd n ∉ (create_server_socket P E std name g).ownCalls g) ∧
    (∀ fd g1, create_server_socket P E std name g = .ret fd g1 →
      fd = E.sock_new ∧ last_bind_rc P E std ≠ -1 ∧
      Call.listen fd 5 ∈ g1.trace.drop g.trace.length) := by
  constructor
  · intro hfd hlen hfail
    have hrc : last_bind_rc P E std = -1 := by
      unfold last_bind_rc
      rcases hfail with ⟨h1, h2⟩ | ⟨h1, h2⟩
      · rw [if_neg h2]; exact h1
      · rw [if_pos h1]; exact h2
    have hown : (create_server_socket P E std name g).ownCalls g
        = bind_calls P E std name ++
          [.log_error "error binding socket", .assuan_sock_close E.sock_new,
            .gcry_term_secmem] := by
      rw [create_server_socket_bind_failed P E std name g hfd hlen hrc,
        ownCalls_after_exit 2 2 g _ _ rfl]
      apply takeWhile_no_exit
      intro c hc
      rcases List.mem_append.1 hc with h | h
      · exact bind_calls_no_exit P E std name c h
      · simp only [List.mem_cons, List.mem_singleton, List.not_mem_nil, or_false] at h
        rcases h with h | h | h <;> rw [h] <;> rfl
    refine ⟨by rw [create_server_socket_bind_failed P E std name g hfd hlen hrc]; rfl, hown, ?_⟩
    intro fd n hmem
    rw [hown] at hmem
    unfold bind_calls at hmem
    split_ifs at hmem <;> simp at hmem
  · intro fd g1 h
    obtain ⟨hfd, hlen⟩ := create_server_socket_ret_pre P E std name g g1 fd h
    rw [create_server_socket_eq P E std name g hfd hlen, server_socket_listen_eq] at h
    split_ifs at h with h1 h2 h3
    all_goals
      injection h with hfdeq hg
      subst hfdeq
      subst hg
      refine ⟨rfl, h1, ?_⟩
      simp

/-- Witness for C11: a private socket whose `bind` fails ends the process with
status 2, and a start-up without failure returns descriptor 3 after `listen`. -/
theorem C11_bind_failure_is_fatal_witness :
    (create_server_socket linux { example_sys with bind1 := (-1, 13) } 0
        "/tmp/gpg-Ab12Cd/S.scdaemon".toList example_globals).exitStatus = some 2 ∧
    Call.listen 3 5 ∈
      (create_server_socket linux example_sys 0 "/tmp/gpg-Ab12Cd/S.scdaemon".toList
        example_globals).globals.trace.drop example_globals.trace.length :=
  ⟨((C11_bind_failure_is_fatal linux { example_sys with bind1 := (-1, 13) } 0
      "/tmp/gpg-Ab12Cd/S.scdaemon".toList example_globals).1 (by decide) (by decide)
      (Or.inl (by decide))).1,
    ((C11_bind_failure_is_fatal linux example_sys 0 "/tmp/gpg-Ab12Cd/S.scdaemon".toList
      example_globals).2 3 _ (by rfl)).2.2⟩

/-- Calls after a list without `exit` keep the list in front of the own calls. -/
theorem no_exit_append (xs ys : List Call) (hx : ∀ c ∈ xs, c.isExit = false)
    (hy : ∀ c ∈ ys, c.isExit = false) : ∀ c ∈ xs ++ ys, c.isExit = false := by
  intro c hc
  rcases List.mem_append.1 hc with h | h
  · exact hx c h
  · exact hy c h

/-- C20, as stated, fails: the nonce call returns 1 after a successful `bind`,
the error is logged and `listen` is called, but `listen` fails and the process
ends with status 2 instead of the descriptor being returned. -/
theorem C20_counterexample_listen_fails_after_nonce_error :
    nonce_listen_fail_sys.bind1.1 = 0 ∧ nonce_listen_fail_sys.get_nonce = 1 ∧
    Call.listen 3 5 ∈
      (create_server_socket linux nonce_listen_fail_sys 0 "/tmp/gpg-Ab12Cd/S.scdaemon".toList
        example_globals).ownCalls example_globals ∧
    (create_server_socket linux nonce_listen_fail_sys 0 "/tmp/gpg-Ab12Cd/S.scdaemon".toList
        example_globals).value = none ∧
    (create_server_socket linux nonce_listen_fail_sys 0 "/tmp/gpg-Ab12Cd/S.scdaemon".toList
        example_globals).exitStatus = some 2 := by
  decide

/-- C20, amended: after a `bind` that did not fail, a nonce call returning -1
ends the process with status 2 before any `listen`; for every other non-zero
return value the error is logged and `listen` is called next, and whenever the
nonce call does not return -1 and `listen` does not fail the descriptor is
returned. -/
theorem C20_nonce_failure (P : Platform) (E : Sys) (std : Int) (name : List Char) (g : Globals)
    (hfd : E.sock_new ≠ GNUPG_INVALID_FD) (hlen : name.length + 1 < P.sun_path_size)
    (hbind : last_bind_rc P E std ≠ -1) :
    (E.get_nonce = -1 →
      (create_server_socket P E std name g).exitStatus = some 2 ∧
      (create_server_socket P E std name g).ownCalls g
        = bind_calls P E std name ++
          [.assuan_sock_get_nonce name, .log_error "error getting nonce for the socket",
            .log_error "error binding socket", .assuan_sock_close E.sock_new,
            .gcry_term_secmem]) ∧
    (E.get_nonce ≠ -1 → E.get_nonce ≠ 0 →
      ∃ rest, (create_server_socket P E std name g).ownCalls g
        = bind_calls P E std name ++
          [.assuan_sock_get_nonce name, .log_error "error getting nonce for the socket",
            .listen E.sock_new 5] ++ rest) ∧
    (E.get_nonce ≠ -1 → E.listen ≠ -1 →
      create_server_socket P E std name g = .ret E.sock_new
        { g with
          errorcount := g.errorcount + (if E.get_nonce ≠ 0 then 1 else 0)
          trace := g.trace ++ bind_calls P E std name ++ [.assuan_sock_get_nonce name] ++
            (if E.get_nonce ≠ 0 then [.log_error "error getting nonce for the socket"] else []) ++
            [.listen E.sock_new 5] ++
            (if g.verbose ≠ 0 then [.log_info "listening on socket"] else []) }) := by
  have hb := bind_calls_no_exit P E std name
  refine ⟨fun hn => ?_, fun hn1 hn0 => ?_, fun hn1 hl => ?_⟩
  · have hr : create_server_socket P E std name g = .exit 2
        (after_exit 2
          { g with
            errorcount := g.errorcount + 1 + 1
            trace := g.trace ++ (bind_calls P E std name ++
              [.assuan_sock_get_nonce name, .log_error "error getting nonce for the socket",
                .log_error "error binding socket", .assuan_sock_close E.sock_new,
                .gcry_term_secmem]) }) := by
      rw [create_server_socket_eq P E std name g hfd hlen, server_socket_listen_eq, if_neg hbind,
        if_pos hn]
      simp only [List.append_assoc]
    rw [hr, ownCalls_after_exit 2 2 g _ _ rfl]
    exact ⟨rfl, takeWhile_no_exit _ (no_exit_append _ _ hb (by
      intro c hc
      simp only [List.mem_cons, List.mem_singleton, List.not_mem_nil, or_false] at hc
      rcases hc with h | h | h | h | h <;> rw [h] <;> rfl))⟩
  · by_cases hl : E.listen = -1
    · have hr : create_server_socket P E std name g = .exit 2
          (after_exit 2
            { g with
              errorcount := g.errorcount + 1 + 1
              trace := g.trace ++ (bind_calls P E std name ++
                [.assuan_sock_get_nonce name, .log_error "error getting nonce for the socket",
                  .listen E.sock_new 5, .log_error "listen() failed",
                  .assuan_sock_close E.sock_new, .gcry_term_secmem]) }) := by
        rw [create_server_socket_eq P E std name g hfd hlen, server_socket_listen_eq,
          if_neg hbind, if_neg hn1, if_pos hl]
        simp [hn0]
      refine ⟨[.log_error "listen() failed", .assuan_sock_close E.sock_new, .gcry_term_secmem],
        ?_⟩
      rw [hr, ownCalls_after_exit 2 2 g _ _ rfl, takeWhile_no_exit _ (no_exit_append _ _ hb (by
        intro c hc
        simp only [List.mem_cons, List.mem_singleton, List.not_mem_nil, or_false] at hc
        rcases hc with h | h | h | h | h | h <;> rw [h] <;> rfl))]
      simp
    · have hr : create_server_socket P E std name g = .ret E.sock_new
          { g with
            errorcount := g.errorcount + 1
            trace := g.trace ++ (bind_calls P E std name ++
              ([.assuan_sock_get_nonce name, .log_error "error getting nonce for the socket",
                .listen E.sock_new 5] ++
                (if g.verbose ≠ 0 then [.log_info "listening on socket"] else []))) } := by
        rw [create_server_socket_eq P E std name g hfd hlen, server_socket_listen_eq,
          if_neg hbind, if_neg hn1, if_neg hl]
        simp [hn0]
      refine ⟨if g.verbose ≠ 0 then [.log_info "listening on socket"] else [], ?_⟩
      rw [hr, ownCalls_ret _ g _ _ rfl (no_exit_append _ _ hb (by
        intro c hc
        split_ifs at hc <;> simp at hc
        · rcases hc with h | h | h | h <;> rw [h] <;> rfl
        · rcases hc with h | h | h <;> rw [h] <;> rfl))]
      simp
  · rw [create_server_socket_eq P E std name g hfd hlen, server_socket_listen_eq, if_neg hbind,
      if_neg hn1, if_neg hl]

/-- Witness for C20: the nonce call returns 1, the error is logged, `listen`
succeeds and descriptor 3 is returned. -/
theorem C20_nonce_failure_witness :
    (create_server_socket linux nonce_fail_sys 0 "/tmp/gpg-Ab12Cd/S.scdaemon".toList
        example_globals).value = some 3 ∧
    Call.log_error "error getting nonce for the socket" ∈
      (create_server_socket linux nonce_fail_sys 0 "/tmp/gpg-Ab12Cd/S.scdaemon".toList
        example_globals).globals.trace :=
  ⟨by
      rw [(C20_nonce_failure linux nonce_fail_sys 0 "/tmp/gpg-Ab12Cd/S.scdaemon".toList
        example_globals (by decide) (by decide) (by decide)).2.2 (by decide) (by decide)]
      rfl,
    by
      rw [(C20_nonce_failure linux nonce_fail_sys 0 "/tmp/gpg-Ab12Cd/S.scdaemon".toList
        example_globals (by decide) (by decide) (by decide)).2.2 (by decide) (by decide)]
      decide⟩

/-- A name that the checks return is the name they were given, without the
separator and with room to spare in `sun_path`. -/
theorem check_socket_name_ret (P : Platform) (n name : List Char) (g g1 : Globals)
    (h : check_socket_name P n g = .ret name g1) :
    name = n ∧ g1 = g ∧ strchr n P.PATHSEP_C = false ∧ n.length + 1 < P.sun_path_size := by
  by_cases hok : strchr n P.PATHSEP_C = false ∧ n.length + 1 < P.sun_path_size
  · rw [check_socket_name_good P n g hok.1 hok.2] at h
    injection h with h1 h2
    exact ⟨h1.symm, h2.symm, hok.1, hok.2⟩
  · have hbad : strchr n P.PATHSEP_C = true ∨ n.length + 1 ≥ P.sun_path_size := by
      by_cases hs : strchr n P.PATHSEP_C = true
      · exact Or.inl hs
      · right
        simp only [Bool.not_eq_true] at hs
        exact Nat.le_of_not_lt fun hl => hok ⟨hs, hl⟩
    obtain ⟨msg, hex⟩ := check_socket_name_bad P n g hbad
    rw [hex] at h
    cases h

/-- Function `create_server_socket` never aborts on a name that fits. -/
theorem create_server_socket_no_abort (P : Platform) (E : Sys) (std : Int) (name : List Char)
    (g : Globals) (hlen : name.length + 1 < P.sun_path_size) :
    (create_server_socket P E std name g).isAbort = false := by
  by_cases hfd : E.sock_new = GNUPG_INVALID_FD
  · simp [create_server_socket, server_socket_bind, bind_apply, Proc.bind, call, modifyG,
      log_error, scd_exit_eq, hfd, Res.isAbort]
  · rw [create_server_socket_eq P E std name g hfd hlen, server_socket_listen_eq]
    split_ifs <;> rfl

/-- C18: every name that `create_socket_name` returns satisfies
`strlen (name) + 1 < sizeof sun_path`, so the assertion of
`create_server_socket` holds for it: called with such a name, under any
answers of its collaborators, the function does not abort. -/
theorem C18_assert_cannot_fail (P : Platform) (E : Sys) (std : Int)
    (standard_name template name : List Char) (g g1 : Globals)
    (h : create_socket_name P E std standard_name template g = .ret name g1) :
    name.length + 1 < P.sun_path_size ∧
    ∀ (E2 : Sys) (std2 : Int) (g2 : Globals),
      (create_server_socket P E2 std2 name g2).isAbort = false := by
  simp only [create_socket_name, bind_apply] at h
  obtain ⟨n, g0, _, hchk⟩ := bind_ret_inv _ _ g g1 name h
  obtain ⟨hn, _, _, hlen⟩ := check_socket_name_ret P n name g0 g1 hchk
  rw [hn]
  exact ⟨hlen, fun E2 std2 g2 => create_server_socket_no_abort P E2 std2 n g2 hlen⟩

/-- Witness for C18: the private name made from the template of `main`. -/
theorem C18_assert_cannot_fail_witness :
    "/tmp/gpg-Ab12Cd/S.scdaemon".toList.length + 1 < linux.sun_path_size ∧
    ∀ (E2 : Sys) (std2 : Int) (g2 : Globals),
      (create_server_socket linux E2 std2 "/tmp/gpg-Ab12Cd/S.scdaemon".toList g2).isAbort
        = false :=
  C18_assert_cannot_fail linux example_sys 0 "S.scdaemon".toList
    "/tmp/gpg-XXXXXX/S.scdaemon".toList "/tmp/gpg-Ab12Cd/S.scdaemon".toList
    (startup_globals "/home/u/.gnupg".toList)
    { startup_globals "/home/u/.gnupg".toList with trace := [.mkdtemp "/tmp/gpg-XXXXXX".toList] }
    (by rfl)

/-! ### The info string of the daemon -/

/-- Only the equals sign after the variable name is replaced, whatever follows. -/
theorem set_first_infostr (rest : List Char) :
    set_first ("SCDAEMON_INFO=".toList ++ rest) '=' ' ' = "SCDAEMON_INFO ".toList ++ rest := by
  rfl

/-- C15: for every socket name and child pid the info string is
`SCDAEMON_INFO=`, the name, a colon, the pid in decimal and `:1`; without a
command the parent prints it followed by `; export SCDAEMON_INFO;` in sh
style, and in csh style prints `setenv ` and the string with its first equals
sign, the one after the variable name, turned into a space; each line ends
with a newline and the parent exits with status 0. -/
theorem C15_info_string (fd : Int) (pid : Nat) (csh_style putenv_rc : Int)
    (exec : Option (Proc Unit)) (name : List Char) (g : Globals)
    (hname : g.socket_name = some name) :
    asprintf_infostr name pid
      = "SCDAEMON_INFO=".toList ++ name ++ [':'] ++ Nat.toDigits 10 pid ++ [':', '1'] ∧
    set_first (asprintf_infostr name pid) '=' ' '
      = "SCDAEMON_INFO ".toList ++ name ++ [':'] ++ Nat.toDigits 10 pid ++ [':', '1'] ∧
    main_daemon_parent fd pid 0 csh_style true putenv_rc exec g = .exit 0
      (after_exit 0
        { g with
          socket_name := some []
          trace := g.trace ++
            [.close fd,
              .printf
                (if csh_style ≠ 0 then
                  "setenv ".toList ++ set_first (asprintf_infostr name pid) '=' ' ' ++ [newline]
                else
                  asprintf_infostr name pid ++ "; export SCDAEMON_INFO;".toList ++ [newline]),
              .xfree] }) := by
  have h1 : asprintf_infostr name pid
      = "SCDAEMON_INFO=".toList ++ name ++ [':'] ++ Nat.toDigits 10 pid ++ [':', '1'] := by
    simp [asprintf_infostr, fmt_lu]
  refine ⟨h1, ?_, ?_⟩
  · have h2 : asprintf_infostr name pid
        = "SCDAEMON_INFO=".toList ++ (name ++ [':'] ++ Nat.toDigits 10 pid ++ [':', '1']) := by
      rw [h1]
      simp only [List.append_assoc]
    rw [h2, set_first_infostr]
    simp only [List.append_assoc]
  · by_cases hc : csh_style = 0
    · simp [main_daemon_parent, bind_apply, Proc.bind, ite_apply_proc, pure_apply, call, modifyG,
        getG, hname, hc, libc_exit_eq]
    · simp [main_daemon_parent, bind_apply, Proc.bind, ite_apply_proc, pure_apply, call, modifyG,
        getG, hname, hc, libc_exit_eq]

/-- Witness for C15: the socket `/run/user/1000/gnupg/S.scdaemon` and the
child 4821, printed in sh style. -/
theorem C15_info_string_witness :
    asprintf_infostr "/run/user/1000/gnupg/S.scdaemon".toList 4821
      = "SCDAEMON_INFO=/run/user/1000/gnupg/S.scdaemon:4821:1".toList ∧
    Call.printf ("SCDAEMON_INFO=/run/user/1000/gnupg/S.scdaemon:4821:1; export SCDAEMON_INFO;".toList
        ++ [newline]) ∈
      (main_daemon_parent 3 4821 0 0 true 0 none
        { example_globals with
          socket_name := some "/run/user/1000/gnupg/S.scdaemon".toList }).globals.trace :=
  ⟨by decide, by
    rw [(C15_info_string 3 4821 0 0 none "/run/user/1000/gnupg/S.scdaemon".toList
      { example_globals with socket_name := some "/run/user/1000/gnupg/S.scdaemon".toList }
      rfl).2.2]
    decide⟩

/-! ### The range of the shutdown counter -/

theorem keepsAlive_bind {R : Globals → Globals → Prop} (htrans : ∀ a b c, R a b → R b c → R a c)
    {α β : Type} {m : Proc α} {f : α → Proc β} (hm : KeepsAlive R m)
    (hf : ∀ a, KeepsAlive R (f a)) : KeepsAlive R (m >>= f) := by
  intro g g2 h
  simp only [bind_apply, Proc.bind] at h
  cases hmg : m g with
  | ret a g1 =>
    rw [hmg] at h
    exact htrans _ _ _ (hm g g1 (by rw [hmg]; rfl)) (hf a g1 g2 h)
  | exit rc g1 => rw [hmg] at h; cases h
  | abort g1 => rw [hmg] at h; cases h
  | blocked g1 =>
    rw [hmg] at h
    exact hm g g2 (by rw [hmg]; exact h)

theorem keepsAlive_pure {R : Globals → Globals → Prop} (hrefl : ∀ a, R a a) {α : Type} (a : α) :
    KeepsAlive R (pure a : Proc α) := by
  intro g g1 h
  simp only [pure_apply, Res.alive, Option.some.injEq] at h
  rw [← h]
  exact hrefl g

theorem keepsAlive_ite {R : Globals → Globals → Prop} {α : Type} (c : Prop) [Decidable c]
    {m1 m2 : Proc α} (h1 : KeepsAlive R m1) (h2 : KeepsAlive R m2) :
    KeepsAlive R (if c then m1 else m2) := by
  split
  · exact h1
  · exact h2

theorem counterOk_refl (g : Globals) : CounterOk g g := fun h => ⟨h, fun h0 => h0⟩

theorem counterOk_trans (a b c : Globals) (h1 : CounterOk a b) (h2 : CounterOk b c) :
    CounterOk a c := by
  intro ha
  obtain ⟨hb, hab⟩ := h1 ha
  obtain ⟨hc, hbc⟩ := h2 hb
  exact ⟨hc, fun h0 => hbc (hab h0)⟩

/-- Code that leaves `shutdown_pending` alone keeps the counter as it is. -/
theorem counterOk_of_eq (g g1 : Globals) (h : g1.shutdown_pending = g.shutdown_pending) :
    CounterOk g g1 := by
  intro hI
  unfold CounterInRange at *
  rw [h]
  exact ⟨hI, fun h0 => h0⟩

theorem counterOk_modifyG (f : Globals → Globals)
    (hf : ∀ g, (f g).shutdown_pending = g.shutdown_pending) : KeepsAlive CounterOk (modifyG f) := by
  intro g g1 h
  simp only [modifyG, Res.alive, Option.some.injEq] at h
  rw [← h]
  exact counterOk_of_eq _ _ (hf g)

theorem counterOk_call (c : Call) : KeepsAlive CounterOk (call c) :=
  counterOk_modifyG _ (fun _ => rfl)

theorem counterOk_log_error (msg : String) : KeepsAlive CounterOk (log_error msg) :=
  counterOk_modifyG _ (fun _ => rfl)

theorem counterOk_getG : KeepsAlive CounterOk getG := by
  intro g g1 h
  simp only [getG, Res.alive, Option.some.injEq] at h
  rw [← h]
  exact counterOk_refl g

/-- Function `handle_signal` keeps the counter in range whenever it returns. -/
theorem counterOk_handle_signal (signo : Int) : KeepsAlive CounterOk (handle_signal signo) := by
  intro g g1 h
  by_cases ht : signo = SIGTERM
  · subst ht
    intro hI
    by_cases h2 : g.shutdown_pending < 2
    · rw [handle_signal_sigterm_lt g h2] at h
      simp only [Res.alive, Option.some.injEq] at h
      rw [← h]
      unfold CounterInRange at *
      simp only
      omega
    · obtain ⟨g2, hex, _⟩ := handle_signal_sigterm_ge g (by omega)
      rw [hex] at h
      cases h
  · by_cases hi : signo = SIGINT
    · subst hi
      rw [handle_signal_sigint_eq] at h
      cases h
    · rw [handle_signal_other_eq signo g ht hi] at h
      simp only [Res.alive, Option.some.injEq] at h
      rw [← h]
      exact counterOk_of_eq _ _ rfl

theorem counterOk_worker_thread (w : WorkerRun) : KeepsAlive CounterOk (worker_thread w) := by
  intro g g1 h
  obtain ⟨g2, h1, _, h3⟩ := worker_thread_eq w g
  rw [h1] at h
  simp only [Res.alive, Option.some.injEq] at h
  subst h
  intro hI
  unfold CounterInRange at *
  rw [h3]
  split <;> omega

theorem counterOk_run_workers (ws : List WorkerRun) : KeepsAlive CounterOk (run_workers ws) := by
  induction ws with
  | nil => exact keepsAlive_pure counterOk_refl _
  | cons w ws ih =>
    unfold run_workers
    exact keepsAlive_bind counterOk_trans (counterOk_worker_thread w) (fun _ => ih)

theorem counterOk_run_steps (steps : List Step) : KeepsAlive CounterOk (run_steps steps) := by
  induction steps with
  | nil => exact keepsAlive_pure counterOk_refl _
  | cons x rest ih =>
    cases x with
    | signal signo =>
      unfold run_steps
      exact keepsAlive_bind counterOk_trans (counterOk_handle_signal signo) (fun _ => ih)
    | worker w =>
      unfold run_steps
      exact keepsAlive_bind counterOk_trans (counterOk_worker_thread w) (fun _ => ih)

theorem counterOk_handle_tick : KeepsAlive CounterOk handle_tick := by
  unfold handle_tick
  repeat' (first
    | with_reducible exact keepsAlive_pure counterOk_refl _
    | with_reducible exact counterOk_log_error _
    | with_reducible exact counterOk_call _
    | with_reducible exact counterOk_getG
    | with_reducible exact counterOk_run_workers _
    | with_reducible exact counterOk_handle_signal _
    | with_reducible exact counterOk_modifyG _ (fun _ => rfl)
    | with_reducible apply keepsAlive_ite
    | with_reducible apply keepsAlive_bind counterOk_trans
    | with_reducible intro _)

theorem counterOk_accept_connection (listen_fd : Int) (wt : Wait) :
    KeepsAlive CounterOk (accept_connection listen_fd wt) := by
  unfold accept_connection
  repeat' (first
    | with_reducible exact keepsAlive_pure counterOk_refl _
    | with_reducible exact counterOk_log_error _
    | with_reducible exact counterOk_call _
    | with_reducible exact counterOk_getG
    | with_reducible exact counterOk_run_workers _
    | with_reducible exact counterOk_handle_signal _
    | with_reducible exact counterOk_modifyG _ (fun _ => rfl)
    | with_reducible apply keepsAlive_ite
    | with_reducible apply keepsAlive_bind counterOk_trans
    | with_reducible intro _)

theorem counterOk_loop_wait (listen_fd : Int) (wt : Wait) (fdset time_ev0 : Bool) :
    KeepsAlive CounterOk (loop_wait listen_fd wt fdset time_ev0) := by
  unfold loop_wait
  cases hsig : wt.sig <;> simp only [] <;>
  repeat' (first
    | with_reducible exact keepsAlive_pure counterOk_refl _
    | with_reducible exact counterOk_log_error _
    | with_reducible exact counterOk_call _
    | with_reducible exact counterOk_run_workers _
    | with_reducible exact counterOk_handle_signal _
    | with_reducible exact counterOk_handle_tick
    | with_reducible exact counterOk_accept_connection _ _
    | with_reducible apply keepsAlive_ite
    | with_reducible apply keepsAlive_bind counterOk_trans
    | with_reducible intro _)

theorem counterOk_loop_body (listen_fd : Int) (wt : Wait) (st : LoopState) :
    KeepsAlive CounterOk (loop_body listen_fd wt st) := by
  unfold loop_body
  exact keepsAlive_bind counterOk_trans counterOk_getG
    (fun _ => counterOk_loop_wait listen_fd wt _ _)

/-- The loop of `handle_connections` keeps the counter in range and non-zero
once non-zero, at every point where it waits or is left. -/
theorem counterOk_handle_connections_loop (listen_fd : Int) (ws : List Wait) :
    ∀ st, KeepsAlive CounterOk (handle_connections_loop listen_fd ws st) := by
  induction ws with
  | nil =>
    intro st g g1 h
    simp only [handle_connections_loop] at h
    split at h <;>
      · simp only [Res.alive, Option.some.injEq] at h
        rw [← h]
        exact counterOk_refl g
  | cons wt ws ih =>
    intro st
    unfold handle_connections_loop
    exact keepsAlive_bind counterOk_trans counterOk_getG
      (fun _ => keepsAlive_ite _ (keepsAlive_pure counterOk_refl _)
        (keepsAlive_bind counterOk_trans (counterOk_loop_body listen_fd wt st) (fun st1 => ih st1)))

/-- C17: from a shutdown counter of 0, 1 or 2 (0 at the start), after any
sequence of `handle_signal` calls and worker completions that leaves the
process running, and at every wait or break of the loop of
`handle_connections`, the counter is again 0, 1 or 2 and is non-zero if it
was non-zero before; a terminate signal that finds it at 2 does not return. -/
theorem C17_counter_stays_in_range (steps : List Step) (listen_fd : Int) (ws : List Wait)
    (st : LoopState) (g : Globals) (hI : CounterInRange g) :
    (∀ g1, run_steps steps g = .ret () g1 →
      CounterInRange g1 ∧ (g.shutdown_pending ≠ 0 → g1.shutdown_pending ≠ 0)) ∧
    (∀ g1, (handle_connections_loop listen_fd ws st g).alive = some g1 →
      CounterInRange g1 ∧ (g.shutdown_pending ≠ 0 → g1.shutdown_pending ≠ 0)) ∧
    (g.shutdown_pending = 2 → (handle_signal SIGTERM g).isRet = false ∧
      (handle_signal SIGTERM g).alive = none) := by
  refine ⟨fun g1 h => ?_, fun g1 h => ?_, fun h2 => ?_⟩
  · exact counterOk_run_steps steps g g1 (by rw [h]; rfl) hI
  · exact counterOk_handle_connections_loop listen_fd ws st g g1 h hI
  · obtain ⟨g2, hex, _⟩ := handle_signal_sigterm_ge g (by omega)
    rw [hex]
    exact ⟨rfl, rfl⟩

/-- Witness for C17: from counter 0 a terminate signal, the end of the pipe
connection and a second terminate signal leave the counter at 2. -/
theorem C17_counter_stays_in_range_witness :
    CounterInRange
      (run_steps [.signal SIGTERM, .worker ⟨GNUPG_INVALID_FD, 0⟩, .signal SIGTERM]
        example_globals).globals :=
  ((C17_counter_stays_in_range
    [.signal SIGTERM, .worker ⟨GNUPG_INVALID_FD, 0⟩, .signal SIGTERM] 3 [] ⟨true, false⟩
    example_globals (Or.inl rfl)).1 _ (by rfl)).1

/-! ### The timer of the loop -/

theorem timerQuiet_refl (g : Globals) : TimerQuiet g g :=
  ⟨rfl, [], by simp, by simp⟩

theorem timerQuiet_trans (a b c : Globals) (h1 : TimerQuiet a b) (h2 : TimerQuiet b c) :
    TimerQuiet a c := by
  obtain ⟨t1, cs1, e1, q1⟩ := h1
  obtain ⟨t2, cs2, e2, q2⟩ := h2
  refine ⟨by rw [t2, t1], cs1 ++ cs2, by rw [e2, e1, List.append_assoc], ?_⟩
  intro x hx
  rcases List.mem_append.1 hx with h | h
  · exact q1 x h
  · exact q2 x h

theorem timerQuiet_call (c : Call) (h : c.isTimerCall = false) : Keeps TimerQuiet (call c) := by
  intro g
  refine ⟨rfl, [c], rfl, ?_⟩
  intro x hx
  rw [List.mem_singleton.1 hx]
  exact h

theorem timerQuiet_log_info (msg : String) : Keeps TimerQuiet (log_info msg) :=
  timerQuiet_call _ rfl

theorem timerQuiet_log_error (msg : String) : Keeps TimerQuiet (log_error msg) := by
  intro g
  refine ⟨rfl, [.log_error msg], rfl, ?_⟩
  intro x hx
  rw [List.mem_singleton.1 hx]
  rfl

theorem timerQuiet_getG : Keeps TimerQuiet getG := fun g => timerQuiet_refl g

theorem timerQuiet_modifyG (f : Globals → Globals) (hf : ∀ g, (f g).trace = g.trace)
    (ht : ∀ g, (f g).ticker_disabled = g.ticker_disabled) : Keeps TimerQuiet (modifyG f) := by
  intro g
  exact ⟨ht g, [], by simp [modifyG, Res.globals, hf], by simp⟩

theorem cleanup_calls_not_timer (n : Option (List Char)) :
    ∀ c ∈ cleanup_calls n, c.isTimerCall = false := by
  rcases n with _ | _ | ⟨c, cs⟩
  · simp [cleanup_calls]
  · simp [cleanup_calls]
  · cases h : strrchr (c :: cs) '/' <;> simp [cleanup_calls, h, Call.isTimerCall]

theorem timerQuiet_cleanup : Keeps TimerQuiet cleanup := by
  intro g
  rw [cleanup_eq]
  exact ⟨rfl, cleanup_calls g.socket_name, rfl, cleanup_calls_not_timer _⟩

theorem timerQuiet_scd_exit {α : Type} (rc : Int) : Keeps TimerQuiet (scd_exit rc : Proc α) := by
  intro g
  rw [scd_exit_eq]
  by_cases hax : g.atexit_cleanup = true
  · refine ⟨by simp [Res.globals, after_exit, after_cleanup, hax],
      [.gcry_term_secmem, .exit (scd_exit_arg rc g)] ++ cleanup_calls g.socket_name,
      by simp [Res.globals, after_exit, after_cleanup, hax], ?_⟩
    intro x hx
    rcases List.mem_append.1 hx with h | h
    · simp only [List.mem_cons, List.mem_singleton, List.not_mem_nil, or_false] at h
      rcases h with h | h <;> rw [h] <;> rfl
    · exact cleanup_calls_not_timer _ x h
  · refine ⟨by simp [Res.globals, after_exit, hax],
      [.gcry_term_secmem, .exit (scd_exit_arg rc g)],
      by simp [Res.globals, after_exit, hax], ?_⟩
    intro x hx
    simp only [List.mem_cons, List.mem_singleton, List.not_mem_nil, or_false] at hx
    rcases hx with h | h <;> rw [h] <;> rfl

theorem timerQuiet_handle_signal (signo : Int) : Keeps TimerQuiet (handle_signal signo) := by
  unfold handle_signal
  repeat' (first
    | rfl
    | with_reducible exact keeps_pure timerQuiet_refl _
    | with_reducible exact timerQuiet_log_info _
    | with_reducible exact timerQuiet_log_error _
    | with_reducible apply timerQuiet_call
    | with_reducible exact timerQuiet_cleanup
    | with_reducible exact timerQuiet_scd_exit _
    | with_reducible exact timerQuiet_getG
    | with_reducible exact timerQuiet_modifyG _ (fun _ => rfl) (fun _ => rfl)
    | with_reducible apply keeps_ite
    | with_reducible apply keeps_bind timerQuiet_trans
    | with_reducible intro _)

theorem timerQuiet_start_connection_thread (ctrl : Ctrl) (rc : Int) :
    Keeps TimerQuiet (start_connection_thread ctrl rc) := by
  unfold start_connection_thread scd_init_default_ctrl scd_deinit_default_ctrl
  repeat' (first
    | rfl
    | with_reducible exact keeps_pure timerQuiet_refl _
    | with_reducible exact timerQuiet_log_info _
    | with_reducible exact timerQuiet_log_error _
    | with_reducible apply timerQuiet_call
    | with_reducible exact timerQuiet_cleanup
    | with_reducible exact timerQuiet_scd_exit _
    | with_reducible exact timerQuiet_getG
    | with_reducible exact timerQuiet_modifyG _ (fun _ => rfl) (fun _ => rfl)
    | with_reducible apply keeps_ite
    | with_reducible apply keeps_bind timerQuiet_trans
    | with_reducible intro _)

theorem timerQuiet_worker_thread (w : WorkerRun) : Keeps TimerQuiet (worker_thread w) := by
  unfold worker_thread
  exact keeps_bind timerQuiet_trans (timerQuiet_start_connection_thread _ _)
    (fun _ => timerQuiet_modifyG _ (fun _ => rfl) (fun _ => rfl))

theorem timerQuiet_run_workers (ws : List WorkerRun) : Keeps TimerQuiet (run_workers ws) := by
  induction ws with
  | nil => exact keeps_pure timerQuiet_refl _
  | cons w ws ih =>
    unfold run_workers
    exact keeps_bind timerQuiet_trans (timerQuiet_worker_thread w) (fun _ => ih)

theorem timerQuiet_accept_connection (listen_fd : Int) (wt : Wait) :
    Keeps TimerQuiet (accept_connection listen_fd wt) := by
  unfold accept_connection
  repeat' (first
    | rfl
    | with_reducible exact keeps_pure timerQuiet_refl _
    | with_reducible exact timerQuiet_log_info _
    | with_reducible exact timerQuiet_log_error _
    | with_reducible apply timerQuiet_call
    | with_reducible exact timerQuiet_cleanup
    | with_reducible exact timerQuiet_scd_exit _
    | with_reducible exact timerQuiet_getG
    | with_reducible exact timerQuiet_modifyG _ (fun _ => rfl) (fun _ => rfl)
    | with_reducible apply keeps_ite
    | with_reducible apply keeps_bind timerQuiet_trans
    | with_reducible intro _)

/-- The worker threads always run to their end. -/
theorem run_workers_ret (ws : List WorkerRun) (g : Globals) :
    ∃ g1, run_workers ws g = .ret () g1 := by
  induction ws generalizing g with
  | nil => exact ⟨g, rfl⟩
  | cons w ws ih =>
    obtain ⟨g1, h1, _, _⟩ := worker_thread_eq w g
    obtain ⟨g2, h2⟩ := ih g1
    exact ⟨g2, by simp only [run_workers, bind_apply, Proc.bind, h1, h2]⟩

/-- Function `handle_tick`: one refresh of the reader status file unless the
ticker is disabled. -/
theorem handle_tick_eq (g : Globals) :
    handle_tick g = .ret ()
      { g with
        trace := g.trace ++
          (if g.ticker_disabled = 0 then [.scd_update_reader_status_file] else []) } := by
  by_cases h : g.ticker_disabled = 0 <;>
    simp [handle_tick, bind_apply, Proc.bind, getG, call, modifyG, pure_apply, h]

/-- A pass of the loop is its wait, the workers that run meanwhile, and the
blocks after the wait, with a timer at hand if one was left or is created. -/
theorem loop_wait_eq (listen_fd : Int) (wt : Wait) (fdset time_ev0 : Bool) (g : Globals) :
    loop_wait listen_fd wt fdset time_ev0 g =
      Proc.bind (run_workers wt.done)
        (fun _ => after_wait listen_fd wt fdset (time_ev0 || wt.timer_ok))
        { g with trace := g.trace ++ wait_calls fdset time_ev0 } := by
  cases time_ev0 <;> cases hsig : wt.sig <;>
    simp only [loop_wait, after_wait, signal_part, tick_part, pass_tail, pass_retry, wait_calls,
      bind_apply, Proc.bind, call, modifyG, pure_apply, ite_apply_proc, hsig, Bool.false_eq_true,
      not_false_eq_true, not_true_eq_false, if_true, if_false, Bool.false_or, Bool.true_or,
      List.nil_append, List.append_assoc, List.singleton_append, List.cons_append,
      handle_tick_eq]
  all_goals (cases run_workers wt.done _ <;> simp only [])
  all_goals
    split_ifs <;>
      simp only [List.append_assoc, List.cons_append, List.nil_append, List.singleton_append]

theorem timerQuiet_signal_part (wt : Wait) : Keeps TimerQuiet (signal_part wt) := by
  unfold signal_part
  cases wt.sig with
  | none => exact keeps_pure timerQuiet_refl _
  | some signo => exact timerQuiet_handle_signal signo

theorem timerQuiet_pass_tail (listen_fd : Int) (wt : Wait) (fdset time_ev1 : Bool) :
    Keeps TimerQuiet (pass_tail listen_fd wt fdset time_ev1) := by
  unfold pass_tail
  repeat' (first
    | rfl
    | with_reducible exact keeps_pure timerQuiet_refl _
    | with_reducible exact timerQuiet_log_error _
    | with_reducible apply timerQuiet_call
    | with_reducible exact timerQuiet_run_workers _
    | with_reducible exact timerQuiet_accept_connection _ _
    | with_reducible apply keeps_ite
    | with_reducible apply keeps_bind timerQuiet_trans
    | with_reducible intro _)

theorem timerQuiet_pass_retry (wt : Wait) (fdset time_ev : Bool) :
    Keeps TimerQuiet (pass_retry wt fdset time_ev) := by
  unfold pass_retry
  repeat' (first
    | rfl
    | with_reducible exact keeps_pure timerQuiet_refl _
    | with_reducible exact timerQuiet_log_error _
    | with_reducible apply timerQuiet_call
    | with_reducible exact timerQuiet_run_workers _
    | with_reducible exact timerQuiet_accept_connection _ _
    | with_reducible apply keeps_ite
    | with_reducible apply keeps_bind timerQuiet_trans
    | with_reducible intro _)

/-- The end of a pass returns the loop state it was given. -/
theorem pass_tail_value (listen_fd : Int) (wt : Wait) (fdset time_ev1 : Bool) (g g1 : Globals)
    (st : LoopState) (h : pass_tail listen_fd wt fdset time_ev1 g = .ret st g1) :
    st = ⟨fdset, time_ev1⟩ := by
  simp only [pass_tail, bind_apply] at h
  obtain ⟨_, ga, _, h⟩ := bind_ret_inv _ _ _ _ _ h
  split at h <;>
    (simp only [bind_apply] at h
     obtain ⟨_, gb, _, h⟩ := bind_ret_inv _ _ _ _ _ h
     obtain ⟨_, gc, _, h⟩ := bind_ret_inv _ _ _ _ _ h
     simp only [pure_apply, Res.ret.injEq] at h
     exact h.1.symm)

theorem pass_retry_value (wt : Wait) (fdset time_ev : Bool) (g g1 : Globals) (st : LoopState)
    (h : pass_retry wt fdset time_ev g = .ret st g1) : st = ⟨fdset, time_ev⟩ := by
  simp only [pass_retry, bind_apply] at h
  obtain ⟨_, ga, _, h⟩ := bind_ret_inv _ _ _ _ _ h
  obtain ⟨_, gb, _, h⟩ := bind_ret_inv _ _ _ _ _ h
  obtain ⟨_, gc, _, h⟩ := bind_ret_inv _ _ _ _ _ h
  simp only [pure_apply, Res.ret.injEq] at h
  exact h.1.symm

/-- The tick block in full: when a timer exists and occurred it is released,
`handle_tick` runs once and no timer is left; otherwise nothing happens. -/
theorem tick_part_eq (wt : Wait) (time_ev : Bool) (g : Globals) :
    tick_part wt time_ev g = .ret (time_ev && !wt.timer)
      { g with
        trace := g.trace ++ (if time_ev = true ∧ wt.timer = true then tick_calls g else []) } := by
  cases time_ev <;> cases ht : wt.timer <;>
    simp [tick_part, bind_apply, Proc.bind, call, modifyG, pure_apply, handle_tick_eq, tick_calls,
      ht]

/-- A pass made of timer-free calls around the tick block. -/
theorem tick_sandwich (tick : Prop) [Decidable tick] (g ga g1 : Globals)
    (h1 : TimerQuiet g ga)
    (h2 : TimerQuiet
      { ga with trace := ga.trace ++ (if tick then tick_calls ga else []) } g1) :
    g1.ticker_disabled = g.ticker_disabled ∧
      ∃ cs1 cs2, g1.trace = g.trace ++ cs1 ++ (if tick then tick_calls g else []) ++ cs2 ∧
        (∀ c ∈ cs1, c.isTimerCall = false) ∧ (∀ c ∈ cs2, c.isTimerCall = false) := by
  obtain ⟨t1, cs1, e1, q1⟩ := h1
  obtain ⟨t2, cs2, e2, q2⟩ := h2
  have ht : tick_calls ga = tick_calls g := by simp only [tick_calls, t1]
  refine ⟨t2.trans t1, cs1, cs2, ?_, q1, q2⟩
  rw [e2]
  simp only [e1, ht]

/-- What `after_wait` does with the timer when the pass runs to its end. -/
theorem after_wait_timer (listen_fd : Int) (wt : Wait) (fdset time_ev : Bool) (g g1 : Globals)
    (st1 : LoopState) (h : after_wait listen_fd wt fdset time_ev g = .ret st1 g1) :
    st1 = ⟨fdset, time_ev && !wt.timer⟩ ∧ g1.ticker_disabled = g.ticker_disabled ∧
      ∃ cs1 cs2,
        g1.trace = g.trace ++ cs1 ++
          (if time_ev = true ∧ wt.timer = true then tick_calls g else []) ++ cs2 ∧
        (∀ c ∈ cs1, c.isTimerCall = false) ∧ (∀ c ∈ cs2, c.isTimerCall = false) := by
  have hblock : ∀ ga : Globals,
      (if time_ev = true ∧ wt.timer = true then do
          call .pth_event_free_time
          handle_tick
          pure (⟨fdset, false⟩ : LoopState)
        else pure ⟨fdset, time_ev⟩ : Proc LoopState) ga =
      .ret ⟨fdset, time_ev && !wt.timer⟩
        { ga with
          trace := ga.trace ++
            (if time_ev = true ∧ wt.timer = true then tick_calls ga else []) } := by
    intro ga
    cases time_ev <;> cases ht : wt.timer <;>
      simp [bind_apply, Proc.bind, call, modifyG, pure_apply, handle_tick_eq, tick_calls]
  unfold after_wait at h
  by_cases hr : wt.ret = -1
  · rw [if_pos hr] at h
    by_cases hc : wt.sig.isSome = true ∨ (time_ev = true ∧ wt.timer = true)
    · rw [if_pos hc] at h
      simp only [bind_apply] at h
      obtain ⟨_, ga, hs, h⟩ := bind_ret_inv _ _ _ _ _ h
      have q1 : TimerQuiet g ga := by
        have := timerQuiet_signal_part wt g
        rw [hs] at this
        exact this
      rw [hblock ga] at h
      simp only [Res.ret.injEq] at h
      obtain ⟨hst, hg⟩ := h
      refine ⟨hst.symm, ?_⟩
      apply tick_sandwich _ g ga g1 q1
      rw [hg]
      exact timerQuiet_refl _
    · rw [if_neg hc] at h
      have hnt : ¬ (time_ev = true ∧ wt.timer = true) := fun k => hc (Or.inr k)
      have hv := pass_retry_value _ _ _ _ _ _ h
      have q := timerQuiet_pass_retry wt fdset time_ev g
      rw [h] at q
      refine ⟨?_, ?_⟩
      · rw [hv]
        cases time_ev <;> cases ht : wt.timer <;> simp_all
      · apply tick_sandwich _ g g g1 (timerQuiet_refl g)
        rw [if_neg hnt]
        simpa using q
  · rw [if_neg hr] at h
    simp only [bind_apply] at h
    obtain ⟨_, ga, hs, h⟩ := bind_ret_inv _ _ _ _ _ h
    obtain ⟨tv, gb, htick, h⟩ := bind_ret_inv _ _ _ _ _ h
    have q1 : TimerQuiet g ga := by
      have := timerQuiet_signal_part wt g
      rw [hs] at this
      exact this
    rw [tick_part_eq] at htick
    simp only [Res.ret.injEq] at htick
    obtain ⟨htv, hgb⟩ := htick
    have hv := pass_tail_value _ _ _ _ _ _ _ h
    have q := timerQuiet_pass_tail listen_fd wt fdset tv gb
    rw [h] at q
    refine ⟨by rw [hv, htv], ?_⟩
    apply tick_sandwich _ g ga g1 q1
    rw [hgb]
    exact q

/-- C16 fails as stated in two places.  (a) A wait reports an interrupt signal
together with the timer while ticking is enabled: `handle_signal` ends the
process with status 0 before the tick block is reached, so the pass releases
no timer and makes no `scd_update_reader_status_file` call.  (b) When
`pth_event` returns no timer the wait is made without an armed timer, and the
pass ends with no timer. -/
theorem C16_counterexample_signal_or_no_timer :
    (example_globals.ticker_disabled = 0 ∧ sigint_tick_wait.timer = true ∧
      (loop_body 3 sigint_tick_wait ⟨true, false⟩ example_globals).exitStatus = some 0 ∧
      (loop_body 3 sigint_tick_wait ⟨true, false⟩ example_globals).newCalls example_globals
        = [.pth_event_time 2, .pth_select_ev true,
            .log_info "SIGINT received - immediate shutdown",
            .log_info "scdaemon (GnuPG) stopped",
            .remove "/tmp/gpg-Ab12Cd/S.scdaemon".toList, .rmdir "/tmp/gpg-Ab12Cd".toList,
            .gcry_term_secmem, .exit 0]) ∧
    (no_timer_conn_wait.timer_ok = false ∧
      (loop_body 3 no_timer_conn_wait ⟨true, false⟩ example_globals).value
        = some ⟨true, false⟩ ∧
      (loop_body 3 no_timer_conn_wait ⟨true, false⟩ example_globals).newCalls example_globals
        = [.pth_event_time 2, .pth_select_ev true, .pth_sigmask_block, .pth_accept 3,
            .xtrycalloc, .pth_spawn 8, .pth_sigmask_restore]) := by
  decide

/-- C16 (amended): a pass of the loop of `handle_connections` that runs to its
end starts with `pth_event_time TIMERTICK_INTERVAL` exactly when it was entered
without a timer, then waits once.  A timer exists at the wait when one was
kept from the pass before or `pth_event` has just made one; the pass releases
the timer and runs `handle_tick` exactly once when the timer exists and occurred,
on either path after the wait, and leaves no timer, so the next pass creates
one; otherwise it makes no timer or tick call and keeps what it had.  In the
tick `scd_update_reader_status_file` is called exactly when `ticker_disabled`
is 0. -/
theorem C16_timer_per_pass (listen_fd : Int) (wt : Wait) (st st1 : LoopState) (g g1 : Globals)
    (h : loop_body listen_fd wt st g = .ret st1 g1) :
    st1.time_ev = ((st.time_ev || wt.timer_ok) && !wt.timer) ∧
    (∃ cs1 cs2,
      g1.trace = g.trace
        ++ wait_calls (if g.shutdown_pending ≠ 0 then false else st.fdset) st.time_ev
        ++ cs1
        ++ (if (st.time_ev || wt.timer_ok) = true ∧ wt.timer = true then tick_calls g else [])
        ++ cs2 ∧
      (∀ c ∈ cs1, c.isTimerCall = false) ∧ (∀ c ∈ cs2, c.isTimerCall = false)) ∧
    wait_calls (if g.shutdown_pending ≠ 0 then false else st.fdset) st.time_ev
      = (if st.time_ev = true then [] else [.pth_event_time TIMERTICK_INTERVAL])
        ++ [.pth_select_ev (if g.shutdown_pending ≠ 0 then false else st.fdset)] ∧
    tick_calls g = .pth_event_free_time ::
      (if g.ticker_disabled = 0 then [.scd_update_reader_status_file] else []) ∧
    handle_tick g = .ret ()
      { g with
        trace := g.trace ++
          (if g.ticker_disabled = 0 then [.scd_update_reader_status_file] else []) } := by
  simp only [loop_body, bind_apply, Proc.bind, getG] at h
  rw [loop_wait_eq] at h
  obtain ⟨_, ga, hw, h⟩ := bind_ret_inv _ _ _ _ _ h
  have q := timerQuiet_run_workers wt.done
    { g with
      trace := g.trace ++
        wait_calls (if g.shutdown_pending ≠ 0 then false else st.fdset) st.time_ev }
  rw [hw] at q
  obtain ⟨hst, _, cs1, cs2, e, q1, q2⟩ := after_wait_timer _ _ _ _ _ _ _ h
  obtain ⟨t0, cs0, e0, q0⟩ := q
  have ht : tick_calls ga = tick_calls g := by
    simp only [tick_calls]
    rw [show ga.ticker_disabled = g.ticker_disabled from t0]
  refine ⟨by rw [hst], ⟨cs0 ++ cs1, cs2, ?_, ?_, q2⟩, rfl, rfl, handle_tick_eq g⟩
  · rw [e, ht]
    simp only [Res.globals] at e0
    rw [e0]
    simp only [List.append_assoc]
  · intro c hc
    rcases List.mem_append.1 hc with k | k
    · exact q0 c k
    · exact q1 c k

/-- Witness for C16: from a state with ticking enabled and no timer, a pass
whose wait is interrupted by the timer creates the timer, waits, releases the
timer, refreshes the reader status file and ends with no timer. -/
theorem C16_timer_per_pass_witness :
    loop_body 3 tick_wait ⟨true, false⟩ example_globals
        = .ret ⟨true, false⟩
          { example_globals with
            trace := [.pth_event_time 2, .pth_select_ev true, .pth_event_free_time,
              .scd_update_reader_status_file] } ∧
      ∃ cs1 cs2,
        [Call.pth_event_time 2, .pth_select_ev true, .pth_event_free_time,
            .scd_update_reader_status_file]
          = example_globals.trace ++ wait_calls true false ++ cs1
            ++ tick_calls example_globals ++ cs2 ∧
        (∀ c ∈ cs1, c.isTimerCall = false) ∧ (∀ c ∈ cs2, c.isTimerCall = false) :=
  ⟨by decide,
    (C16_timer_per_pass 3 tick_wait ⟨true, false⟩ ⟨true, false⟩ example_globals
      { example_globals with
        trace := [.pth_event_time 2, .pth_select_ev true, .pth_event_free_time,
          .scd_update_reader_status_file] } (by decide)).2.1⟩

end Scdaemon
